import Mathlib

/-!
Verification development for the adaptive coaching engine of `md-scanner`
(`md_scanner/learning/`: `behavior_tracker.py`, `difficulty_detector.py`,
`suggestion_engine.py`, `adaptive_coach.py`).

Modelling conventions, used consistently below:
* Python floats are modelled as exact rationals (`ℚ`).  Every constant in the
  source is a short decimal, and every claim checked here is preserved by the
  exact-arithmetic reading.
* Timestamps (ISO strings in the source, always produced by `datetime.now()`
  and compared after parsing) are modelled as rationals measured in days;
  the 5-minute report-cache window is `5 / 1440` days.
* Python dictionaries whose key sets are dynamic (the struggle / improvement /
  regression entries, JSON documents on disk) are modelled as association
  lists of `PyVal`, a dynamic value type; subscription (`d[k]`) and attribute
  errors are modelled in an `Except` monad, mirroring where the interpreter
  would raise.
* `random.random()` is modelled by threading an explicit sample `rand ∈ [0,1)`.
* String classification helpers (`isdigit`, `lower`, `isupper`) are modelled
  with the corresponding ASCII operations on `Char`.
-/

set_option maxRecDepth 4000

namespace MdScanner

/-- Dynamic Python value (also used as the JSON document model). -/
inductive PyVal where
  | pnone
  | str (s : String)
  | num (q : ℚ)
  | bool (b : Bool)
  | list (xs : List PyVal)
  | dict (xs : List (String × PyVal))

/-- Error raised by the modelled interpreter (exception class plus message). -/
abbrev PyErr := String

/-- Python truthiness for the dynamic values we model. -/
def pyTruthy : PyVal → Bool
  | .pnone => false
  | .str s => s ≠ ""
  | .num q => q ≠ 0
  | .bool b => b
  | .list xs => ¬ xs.isEmpty
  | .dict xs => ¬ xs.isEmpty

/-- Model of `d[k]`: key lookup that raises `KeyError` on a dict without the
key and `TypeError` on non-dict values (as subscripting a list with a string
or a scalar would). -/
def pyGetItem (v : PyVal) (k : String) : Except PyErr PyVal :=
  match v with
  | .dict d =>
    match d.lookup k with
    | some x => .ok x
    | none => .error ("KeyError: " ++ k)
  | _ => .error ("TypeError: value is not subscriptable by " ++ k)

/-- Projection taking an `Except` to its error, if any. -/
def errOf {α : Type} (e : Except PyErr α) : Option PyErr :=
  match e with
  | .error m => some m
  | .ok _ => none

/-- Increment a counter in an association list, inserting at the end on first
use (models `collections.defaultdict(int)` updates, whose iteration order is
first-touch insertion order). -/
def bumpCount (m : List (String × ℕ)) (k : String) : List (String × ℕ) :=
  match m with
  | [] => [(k, 1)]
  | (k', v) :: rest =>
    if k' = k then (k', v + 1) :: rest else (k', v) :: bumpCount rest k

/-- Add an element to a list-modelled set (no duplicates). -/
def setInsert (s : List String) (x : String) : List String :=
  if x ∈ s then s else s ++ [x]

/-- Update an association list at a key, appending on first use. -/
def setAssoc {α : Type} (m : List (String × α)) (k : String) (v : α) :
    List (String × α) :=
  match m with
  | [] => [(k, v)]
  | (k', v') :: rest =>
    if k' = k then (k', v) :: rest else (k', v') :: setAssoc rest k v

/-- Model of the Python slice `l[-n:]`. -/
def takeLast {α : Type} (n : ℕ) (l : List α) : List α :=
  l.drop (l.length - n)

/-- Model of the Python slice `l[:-n]`. -/
def dropLastN {α : Type} (n : ℕ) (l : List α) : List α :=
  l.take (l.length - n)

/-- Sum of a list of rationals. -/
def qsum (l : List ℚ) : ℚ := l.foldr (· + ·) 0

/-- Largest value in a list of naturals (`max(xs)`), 0 on the empty list
(every use site guards non-emptiness as the source does). -/
def natMax (l : List ℕ) : ℕ := l.foldr Nat.max 0

/-- Round half to even (the rounding used by Python string formatting of
non-negative values; only non-negative quantities are formatted here). -/
def roundHalfEven (q : ℚ) : ℤ :=
  let f := ⌊q⌋
  let frac := q - (f : ℚ)
  if frac < 1/2 then f
  else if (1:ℚ)/2 < frac then f + 1
  else if f % 2 = 0 then f else f + 1

/-- Model of the format specifier `:.0%` on a non-negative float. -/
def pctStr (q : ℚ) : String := toString (roundHalfEven (q * 100)) ++ "%"

/-- Model of the format specifier `:.1f` on a non-negative float. -/
def fix1Str (q : ℚ) : String :=
  let n := roundHalfEven (q * 10)
  toString (n / 10) ++ "." ++ toString (n % 10)

/-! ## Behavior Store (`behavior_tracker.py`)

Event records mirror the dataclasses `SearchEvent`, `FileAccessEvent`,
`NavigationEvent` and `OrganizationDecision`.  The `context` map of
`OrganizationDecision` is stored by the source but never read by any
analytics query, and is omitted from the model. -/

structure SearchEvent where
  timestamp : ℚ
  query : String
  results_count : ℕ
  clicked_result : Option String
  time_to_click_ms : Option ℤ
  refined_query : Option String
  session_id : String
  deriving DecidableEq

structure FileAccessEvent where
  timestamp : ℚ
  file_path : String
  file_type : String
  access_type : String
  previous_name : Option String
  new_name : Option String
  source_path : Option String
  dest_path : Option String
  session_id : String
  deriving DecidableEq

structure NavigationEvent where
  timestamp : ℚ
  path : String
  time_spent_seconds : ℚ
  files_viewed : ℕ
  action_taken : String
  session_id : String
  deriving DecidableEq

structure DecisionEvent where
  timestamp : ℚ
  decision_type : String
  suggested_value : Option String
  user_value : String
  file_path : String
  deriving DecidableEq

/-- The `self.events` table of `BehaviorTracker` (keys `searches`,
`file_accesses`, `navigation`, `decisions`). -/
structure TrackerEvents where
  searches : List SearchEvent
  file_accesses : List FileAccessEvent
  navigation : List NavigationEvent
  decisions : List DecisionEvent
  deriving DecidableEq

/-- The `self.stats` counters of `BehaviorTracker`. -/
structure TrackerStats where
  total_searches : ℕ
  successful_searches : ℕ
  total_files_accessed : ℕ
  renames_performed : ℕ
  suggestions_accepted : ℕ
  suggestions_rejected : ℕ
  suggestions_customized : ℕ
  first_seen : Option ℚ
  last_seen : Option ℚ
  deriving DecidableEq

def emptyTrackerEvents : TrackerEvents := ⟨[], [], [], []⟩

def defaultTrackerStats : TrackerStats := ⟨0, 0, 0, 0, 0, 0, 0, none, none⟩

/-- Truthiness of an optional string (`if x:` on a `str | None` value). -/
def optStrTruthy : Option String → Bool
  | some s => s ≠ ""
  | none => false

/-- `BehaviorTracker._calculate_success_rate`. -/
def calculateSuccessRate (searches : List SearchEvent) : ℚ :=
  if searches.isEmpty then 0
  else
    ((searches.filter (fun s => optStrTruthy s.clicked_result)).length : ℚ) /
      (searches.length : ℚ)

/-- Python `str.split()` (split on runs of whitespace, dropping empties),
applied to a list of characters. -/
def pySplitWs (cs : List Char) : List (List Char) :=
  match cs with
  | [] => []
  | c :: rest =>
    if c.isWhitespace then pySplitWs rest
    else
      match pySplitWs rest with
      | [] => [[c]]
      | w :: ws =>
        match rest with
        | [] => [[c]]
        | c' :: _ => if c'.isWhitespace then [c] :: w :: ws else (c :: w) :: ws

/-- Lower-case a string character-wise (model of `str.lower`). -/
def pyLower (s : String) : String := String.mk (s.data.map Char.toLower)

/-- Result of `BehaviorTracker.get_search_patterns`. -/
structure SearchPatterns where
  total_searches : ℕ
  common_terms : List (String × ℕ)
  failed_queries : List String
  search_refinements : List (String × String)
  success_rate : ℚ

/-- `BehaviorTracker.get_search_patterns(days)` over the event log at time
`now`. -/
def getSearchPatterns (searches : List SearchEvent) (now : ℚ)
    (days : ℚ := 30) : SearchPatterns :=
  let recent := searches.filter (fun s => now - days < s.timestamp)
  let queryWords := recent.foldl
    (fun m s => (pySplitWs (pyLower s.query).data).foldl
      (fun m' w => bumpCount m' (String.mk w)) m) []
  let failed := (recent.filter (fun s => ¬ optStrTruthy s.clicked_result)).map
    (fun s => s.query)
  let refined := (recent.filter (fun s => optStrTruthy s.refined_query)).map
    (fun s => (s.query, s.refined_query.getD ""))
  { total_searches := recent.length
    common_terms :=
      (queryWords.mergeSort (fun a b => decide (b.2 ≤ a.2))).take 20
    failed_queries := takeLast 10 failed
    search_refinements := takeLast 10 refined
    success_rate := calculateSuccessRate recent }

/-- Result of `BehaviorTracker.get_file_patterns`. -/
structure FilePatterns where
  total_accesses : ℕ
  by_file_type : List (String × ℕ)
  by_access_type : List (String × ℕ)
  recent_renames : List (Option String × Option String × String)

/-- `BehaviorTracker.get_file_patterns(days)` at time `now`. -/
def getFilePatterns (accesses : List FileAccessEvent) (now : ℚ)
    (days : ℚ := 30) : FilePatterns :=
  let recent := accesses.filter (fun a => now - days < a.timestamp)
  let typeCounts := recent.foldl (fun m a => bumpCount m a.file_type) []
  let accessCounts := recent.foldl (fun m a => bumpCount m a.access_type) []
  let renames := (recent.filter (fun a => a.access_type = "rename")).map
    (fun a => (a.previous_name, a.new_name, a.file_path))
  { total_accesses := recent.length
    by_file_type := typeCounts
    by_access_type := accessCounts
    recent_renames := takeLast 10 renames }

/-! ### Path helpers (model of `pathlib.PurePosixPath` operations) -/

/-- Split a character list at a separator character. -/
def splitOnChar (sep : Char) (cs : List Char) : List (List Char) :=
  match cs with
  | [] => [[]]
  | c :: rest =>
    let r := splitOnChar sep rest
    if c = sep then [] :: r
    else
      match r with
      | [] => [[c]]
      | w :: ws => (c :: w) :: ws

/-- Normalised path components (empty and `.` components dropped, as
`pathlib` does). -/
def pathComps (p : String) : List (List Char) :=
  (splitOnChar '/' p.data).filter (fun c => ¬ c.isEmpty ∧ c ≠ ['.'])

/-- `len(Path(p).parts)`: components plus one for the root anchor. -/
def pathPartsCount (p : String) : ℕ :=
  (if p.startsWith "/" then 1 else 0) + (pathComps p).length

/-- `Path(p).name`: the final component. -/
def pyName (p : String) : List Char := ((pathComps p).getLast?).getD []

/-- Index (from the start) of the last `.` in a name, if any. -/
def lastDotIdx (cs : List Char) : Option ℕ :=
  (List.range cs.length).foldl
    (fun acc i => if cs.get? i = some '.' then some i else acc) none

/-- `Path(p).suffix`: the final extension, empty for leading-dot-only or
trailing-dot names. -/
def pySuffix (p : String) : String :=
  let n := pyName p
  match lastDotIdx n with
  | some i => if 0 < i ∧ i < n.length - 1 then String.mk (n.drop i) else ""
  | none => ""

/-- `Path(p).stem`: the final component without its extension. -/
def pyStem (p : String) : String :=
  let n := pyName p
  match lastDotIdx n with
  | some i => if 0 < i ∧ i < n.length - 1 then String.mk (n.take i) else String.mk n
  | none => String.mk n

/-- `str(Path(p).parent)`. -/
def pyParentStr (p : String) : String :=
  let cs := (pathComps p).map String.mk
  if p.startsWith "/" then
    if cs.length ≤ 1 then "/"
    else "/" ++ String.intercalate "/" cs.dropLast
  else
    if cs.length ≤ 1 then "."
    else String.intercalate "/" cs.dropLast

/-! ### Naming preference analysis (`get_naming_preferences`) -/

/-- The `patterns` record assembled by
`BehaviorTracker.get_naming_preferences` (the `uses_prefixes` list holds
`{"prefix": k, "count": v}` entries as pairs). -/
structure NamingPatterns where
  uses_dates : ℕ
  uses_underscores : ℕ
  uses_hyphens : ℕ
  uses_camelCase : ℕ
  uses_lowercase : ℕ
  uses_prefixes : List (String × ℕ)
  average_length : ℚ
  primary_separator : String
  date_frequency : ℚ
  deriving DecidableEq

/-- The leading token of a name before the first of the separators
`'_'`, `'-'`, `' '` that occurs in it, if any (the `for sep in ...: break`
loop of `get_naming_preferences`). -/
def namePfxToken (name : String) : Option String :=
  if name.data.contains '_' then
    some (String.mk ((splitOnChar '_' name.data).headD []))
  else if name.data.contains '-' then
    some (String.mk ((splitOnChar '-' name.data).headD []))
  else if name.data.contains ' ' then
    some (String.mk ((splitOnChar ' ' name.data).headD []))
  else none

/-- `BehaviorTracker.get_naming_preferences`: learns naming patterns from the
`new_name` of recorded renames.  Returns `(learned_patterns, sample_size)`
with `learned_patterns = none` when there are no renames. -/
def getNamingPreferences (accesses : List FileAccessEvent) :
    Option NamingPatterns × ℕ :=
  let renames := accesses.filter
    (fun a => a.access_type = "rename" ∧ optStrTruthy a.new_name)
  if renames.isEmpty then (none, 0)
  else
    let names := renames.map (fun a => a.new_name.getD "")
    let usesDates :=
      (names.filter (fun n =>
        n.data.any Char.isDigit ∧ 4 ≤ (n.data.filter Char.isDigit).length)).length
    let usesUnderscores := (names.filter (fun n => n.data.contains '_')).length
    let usesHyphens := (names.filter (fun n => n.data.contains '-')).length
    let usesLowercase := (names.filter (fun n => n = pyLower n)).length
    let usesCamel :=
      (names.filter (fun n => (n.data.drop 1).any Char.isUpper)).length
    let pfxCounts := names.foldl
      (fun m n =>
        match namePfxToken n with
        | some p => if p.length < 15 then bumpCount m p else m
        | none => m) []
    let lengths := names.map (fun n => (n.length : ℚ))
    let total := renames.length
    let patterns : NamingPatterns :=
      { uses_dates := usesDates
        uses_underscores := usesUnderscores
        uses_hyphens := usesHyphens
        uses_camelCase := usesCamel
        uses_lowercase := usesLowercase
        uses_prefixes :=
          (pfxCounts.mergeSort (fun a b => decide (b.2 ≤ a.2))).take 5
        average_length :=
          if lengths.isEmpty then 0 else qsum lengths / (lengths.length : ℚ)
        primary_separator :=
          if usesHyphens < usesUnderscores then "underscore" else "hyphen"
        date_frequency :=
          if total = 0 then 0 else (usesDates : ℚ) / (total : ℚ) }
    (some patterns, renames.length)

/-- Result of `BehaviorTracker.get_suggestion_effectiveness`. -/
structure SuggestionEffectiveness where
  total_suggestions : ℕ
  acceptance_rate : ℚ
  rejection_rate : ℚ
  customization_rate : ℚ
  effective : Option Bool
  deriving DecidableEq

/-- `BehaviorTracker.get_suggestion_effectiveness`. -/
def getSuggestionEffectiveness (st : TrackerStats) : SuggestionEffectiveness :=
  let accepted := st.suggestions_accepted
  let rejected := st.suggestions_rejected
  let customized := st.suggestions_customized
  let total := accepted + rejected + customized
  if total = 0 then
    { total_suggestions := 0, acceptance_rate := 0, rejection_rate := 0
      customization_rate := 0, effective := none }
  else
    { total_suggestions := total
      acceptance_rate := (accepted : ℚ) / (total : ℚ)
      rejection_rate := (rejected : ℚ) / (total : ℚ)
      customization_rate := (customized : ℚ) / (total : ℚ)
      effective := some (decide ((1:ℚ)/2 < ((accepted : ℚ) + customized) / total)) }

/-! ## Skill Assessor (`difficulty_detector.py`) -/

/-- The dataclass `SkillAssessment` (`last_updated` is the assessment time). -/
structure SkillAssessment where
  skill_name : String
  score : ℚ
  confidence : ℚ
  trend : String
  evidence : List String
  last_updated : ℚ
  samples_count : ℕ
  deriving DecidableEq

/-- The detector's own per-skill score history (`self.skill_history`), a
first-touch-ordered map from skill name to recorded scores.  The source
stores `{"score": s, "timestamp": t}` entries; only the scores are ever
read, so entries are modelled by their score. -/
abbrev DetectorHist := List (String × List ℚ)

/-- `DifficultyDetector._calculate_trend`: appends the current score, keeps
the last 10 entries, and classifies the recent-vs-older score means.
Returns the trend together with the updated history map. -/
def calculateTrend (hist : DetectorHist) (skillName : String) (score : ℚ) :
    String × DetectorHist :=
  let old := (hist.lookup skillName).getD []
  let full := old ++ [score]
  let hist' := setAssoc hist skillName (takeLast 10 full)
  let trend :=
    if full.length < 3 then "new"
    else
      let recent := takeLast 3 full
      let older := if 3 < full.length then dropLastN 3 full else recent
      let recentAvg := qsum recent / (recent.length : ℚ)
      let olderAvg := qsum older / (older.length : ℚ)
      let diff := recentAvg - olderAvg
      if (1:ℚ)/10 < diff then "improving"
      else if diff < -(1/10 : ℚ) then "regressing"
      else "stable"
  (trend, hist')

/-- The below-minimum neutral assessment each assessor returns (score 0.5,
confidence 0.1, trend "new"). -/
def neutralAssessment (skillName evidenceMsg : String) (now : ℚ)
    (samples : ℕ) : SkillAssessment :=
  { skill_name := skillName, score := 1/2, confidence := 1/10, trend := "new"
    evidence := [evidenceMsg], last_updated := now, samples_count := samples }

/-- `DifficultyDetector._assess_search_ability`. -/
def assessSearchAbility (ev : TrackerEvents) (hist : DetectorHist)
    (now : ℚ) : SkillAssessment × DetectorHist :=
  let patterns := getSearchPatterns ev.searches now
  let total := patterns.total_searches
  if total < 3 then
    (neutralAssessment "search_ability" "Not enough search data" now total, hist)
  else
    let successRate := patterns.success_rate
    let refinementRate := (patterns.search_refinements.length : ℚ) / (total : ℚ)
    let failureRate := (patterns.failed_queries.length : ℚ) / (total : ℚ)
    let score := successRate * (1/2) + (1 - refinementRate) * (1/4) +
      (1 - failureRate) * (1/4)
    let td := calculateTrend hist "search_ability" score
    ({ skill_name := "search_ability"
       score := score
       confidence := min ((total : ℚ) / 20) 1
       trend := td.1
       evidence :=
         ["Search success rate: " ++ pctStr successRate,
          "Search refinement rate: " ++ pctStr refinementRate,
          "Abandoned searches: " ++ pctStr failureRate]
       last_updated := now
       samples_count := total }, td.2)

/-- `DifficultyDetector._assess_naming_consistency`.  (The file-pattern query
the source also issues is unused there and not repeated here.) -/
def assessNamingConsistency (ev : TrackerEvents) (hist : DetectorHist)
    (now : ℚ) : SkillAssessment × DetectorHist :=
  let namingData := getNamingPreferences ev.file_accesses
  let sampleSize := namingData.2
  if sampleSize < 5 then
    (neutralAssessment "naming_consistency" "Not enough naming data" now
      sampleSize, hist)
  else
    -- `learned_patterns` is always present once `sample_size ≥ 5`; the
    -- fallback keeps the definition total.
    let patterns := namingData.1.getD
      ⟨0, 0, 0, 0, 0, [], 0, "hyphen", 0⟩
    let underscorePct := (patterns.uses_underscores : ℚ) / (sampleSize : ℚ)
    let hyphenPct := (patterns.uses_hyphens : ℚ) / (sampleSize : ℚ)
    let separatorConsistency :=
      max underscorePct (max hyphenPct (1 - underscorePct - hyphenPct))
    let lowercasePct := (patterns.uses_lowercase : ℚ) / (sampleSize : ℚ)
    let caseConsistency := max lowercasePct (1 - lowercasePct)
    let hasPrefixes :=
      match patterns.uses_prefixes with
      | [] => false
      | p :: _ => decide (3 ≤ p.2)
    let score := separatorConsistency * (2/5) + caseConsistency * (3/10) +
      (if hasPrefixes then (3:ℚ)/10 else 3/20)
    let td := calculateTrend hist "naming_consistency" score
    ({ skill_name := "naming_consistency"
       score := score
       confidence := min ((sampleSize : ℚ) / 15) 1
       trend := td.1
       evidence :=
         ["Separator consistency: " ++ pctStr separatorConsistency,
          "Case consistency: " ++ pctStr caseConsistency,
          "Uses category prefixes: " ++ (if hasPrefixes then "Yes" else "No")]
       last_updated := now
       samples_count := sampleSize }, td.2)

/-- `DifficultyDetector._assess_folder_organization`. -/
def assessFolderOrganization (ev : TrackerEvents) (hist : DetectorHist)
    (now : ℚ) : SkillAssessment × DetectorHist :=
  let events := ev.navigation
  if events.length < 5 then
    (neutralAssessment "folder_organization" "Not enough navigation data" now
      events.length, hist)
  else
    let avgNavTime := qsum ((takeLast 20 events).map
        (fun e => e.time_spent_seconds)) / (min events.length 20 : ℚ)
    let timeScore := 1 - min (avgNavTime / 60) 1
    let paths := ((takeLast 50 ev.file_accesses).filter
      (fun a => a.file_path ≠ "")).map (fun a => a.file_path)
    let depthEv :=
      if ¬ paths.isEmpty then
        let avgDepth := qsum (paths.map (fun p => (pathPartsCount p : ℚ))) /
          (paths.length : ℚ)
        some (1 - min ((avgDepth - 3) / 7) 1, avgDepth)
      else none
    let depthScore := (depthEv.map Prod.fst).getD (1/2)
    let folderToTypes := (takeLast 100 ev.file_accesses).foldl
      (fun m a =>
        if a.file_path ≠ "" then
          let folder := pyParentStr a.file_path
          setAssoc m folder (setInsert ((m.lookup folder).getD []) a.file_type)
        else m) ([] : List (String × List String))
    let scatterEv :=
      if ¬ folderToTypes.isEmpty then
        let typeFolders := folderToTypes.foldl
          (fun m ft => ft.2.foldl (fun m' t => bumpCount m' t) m) []
        let maxScatter :=
          if typeFolders.isEmpty then 1 else natMax (typeFolders.map Prod.snd)
        some (1 - min (((maxScatter : ℚ) - 3) / 10) 1, maxScatter)
      else none
    let scatterScore := (scatterEv.map Prod.fst).getD (1/2)
    let score := timeScore * (3/10) + depthScore * (7/20) +
      scatterScore * (7/20)
    let td := calculateTrend hist "folder_organization" score
    ({ skill_name := "folder_organization"
       score := score
       confidence := min ((events.length : ℚ) / 20) 1
       trend := td.1
       evidence :=
         ["Avg navigation time: " ++ fix1Str avgNavTime ++ "s"] ++
         (match depthEv with
          | some (_, d) => ["Avg folder depth: " ++ fix1Str d]
          | none => []) ++
         (match scatterEv with
          | some (_, ms) =>
            ["Max file type scatter: " ++ toString ms ++ " folders"]
          | none => [])
       last_updated := now
       samples_count := events.length }, td.2)

/-- `DifficultyDetector._assess_file_management`. -/
def assessFileManagement (ev : TrackerEvents) (stats : TrackerStats)
    (hist : DetectorHist) (now : ℚ) : SkillAssessment × DetectorHist :=
  let filePatterns := getFilePatterns ev.file_accesses now
  let effectiveness := getSuggestionEffectiveness stats
  let total := filePatterns.total_accesses
  if total < 5 then
    (neutralAssessment "file_management" "Not enough file access data" now
      total, hist)
  else
    let renames := (filePatterns.by_access_type.lookup "rename").getD 0
    let opens := (filePatterns.by_access_type.lookup "open").getD 1
    let renameRatio := (renames : ℚ) / (max opens 1 : ℚ)
    let renameScore := 1 - min (renameRatio / (3/10)) 1
    let suggEv :=
      if 0 < effectiveness.total_suggestions then
        some (effectiveness.acceptance_rate * (7/10) +
          effectiveness.customization_rate * (3/10),
          effectiveness.acceptance_rate, effectiveness.customization_rate)
      else none
    let suggestionScore := (suggEv.map (fun t => t.1)).getD (1/2)
    let operationTypes :=
      (filePatterns.by_access_type.filter (fun kv => 0 < kv.2)).length
    let varietyScore := min ((operationTypes : ℚ) / 4) 1
    let score := renameScore * (2/5) + suggestionScore * (7/20) +
      varietyScore * (1/4)
    let td := calculateTrend hist "file_management" score
    ({ skill_name := "file_management"
       score := score
       confidence := min ((total : ℚ) / 30) 1
       trend := td.1
       evidence :=
         ["Rename ratio: " ++ pctStr renameRatio] ++
         (match suggEv with
          | some (_, acc, cust) =>
            ["Suggestion acceptance: " ++ pctStr acc,
             "Suggestion customization: " ++ pctStr cust]
          | none => []) ++
         ["Operation variety: " ++ toString operationTypes ++ " types"]
       last_updated := now
       samples_count := total }, td.2)

/-- The dataclass `DifficultyReport`.  The struggle / improvement /
regression entries are plain Python dicts in the source and are modelled as
`PyVal` dictionaries. -/
structure DifficultyReport where
  overall_skill : ℚ
  skills : List (String × SkillAssessment)
  struggles : List PyVal
  improvements : List PyVal
  regressions : List PyVal
  recommendations : List String

/-- `DifficultyDetector._identify_struggles`: dict entries keyed
`skill` / `score` / `evidence` / `severity`, sorted ascending by score. -/
def identifyStruggles (skills : List (String × SkillAssessment)) :
    List PyVal :=
  let entries := (skills.filter
    (fun na => na.2.score < 2/5 ∧ (3:ℚ)/10 < na.2.confidence)).map
    (fun na =>
      (na.2.score,
       PyVal.dict
         [("skill", .str na.1),
          ("score", .num na.2.score),
          ("evidence", .list (na.2.evidence.map PyVal.str)),
          ("severity",
           .str (if na.2.score < 1/4 then "high" else "medium"))]))
  (entries.mergeSort (fun a b => decide (a.1 ≤ b.1))).map Prod.snd

/-- `DifficultyDetector._identify_improvements`. -/
def identifyImprovements (skills : List (String × SkillAssessment)) :
    List PyVal :=
  (skills.filter (fun na => na.2.trend = "improving")).map
    (fun na =>
      PyVal.dict
        [("skill", .str na.1),
         ("current_score", .num na.2.score),
         ("message",
          .str ("Great progress on " ++ (na.1.replace "_" " ") ++ "!"))])

/-- `DifficultyDetector._identify_regressions`. -/
def identifyRegressions (skills : List (String × SkillAssessment)) :
    List PyVal :=
  (skills.filter
    (fun na => na.2.trend = "regressing" ∧ (2:ℚ)/5 < na.2.confidence)).map
    (fun na =>
      PyVal.dict
        [("skill", .str na.1),
         ("current_score", .num na.2.score),
         ("message",
          .str ("Noticed some regression in " ++ (na.1.replace "_" " ") ++
            ". Let me help!")),
         ("should_increase_suggestions", .bool true)])

/-- The per-skill recommendation template of
`DifficultyDetector._generate_recommendations`. -/
def recommendationFor (skill : String) : List String :=
  if skill = "search_ability" then
    ["Try using more specific keywords when searching. I\x27ll show preview snippets to help you identify the right files."]
  else if skill = "naming_consistency" then
    ["I noticed varying naming patterns. Consider using a consistent format like: CATEGORY_topic_YYYYMMDD (e.g., NOTES_meeting_20260209)"]
  else if skill = "folder_organization" then
    ["Some files seem scattered. Would you like me to suggest a folder structure based on your file types and topics?"]
  else if skill = "file_management" then
    ["You\x27re renaming files frequently. I can suggest better names upfront to save you time."]
  else []

/-- `DifficultyDetector._generate_recommendations`: up to two struggle
templates (the struggles list is already sorted ascending by score) plus an
encouragement for the first improving skill. -/
def generateRecommendations (skills : List (String × SkillAssessment)) :
    List String :=
  let struggling := (skills.filter
    (fun na => na.2.score < 2/5 ∧ (3:ℚ)/10 < na.2.confidence))
  let sorted := struggling.mergeSort (fun a b => decide (a.2.score ≤ b.2.score))
  let fromStruggles := (sorted.take 2).foldr
    (fun na acc => recommendationFor na.1 ++ acc) []
  let improving := skills.filter (fun na => na.2.trend = "improving")
  let encouragement :=
    match improving with
    | [] => []
    | na :: _ =>
      ["You\x27re getting better at " ++
        (na.2.skill_name.replace "_" " ") ++ "! Keep it up."]
  fromStruggles ++ encouragement

/-- `DifficultyDetector.assess_all_skills`: runs the four assessors (in the
order of the source's dict literal, threading the trend history), computes
the confidence-weighted overall skill, and assembles the report.  Returns
the report with the updated detector history. -/
def assessAllSkills (ev : TrackerEvents) (stats : TrackerStats)
    (hist : DetectorHist) (now : ℚ) : DifficultyReport × DetectorHist :=
  let r1 := assessSearchAbility ev hist now
  let r2 := assessNamingConsistency ev r1.2 now
  let r3 := assessFolderOrganization ev r2.2 now
  let r4 := assessFileManagement ev stats r3.2 now
  let skills : List (String × SkillAssessment) :=
    [("search_ability", r1.1), ("naming_consistency", r2.1),
     ("folder_organization", r3.1), ("file_management", r4.1)]
  let validSkills := (skills.map Prod.snd).filter
    (fun s => (3:ℚ)/10 < s.confidence)
  let overall :=
    if ¬ validSkills.isEmpty then
      qsum (validSkills.map (fun s => s.score * s.confidence)) /
        qsum (validSkills.map (fun s => s.confidence))
    else 1/2
  ({ overall_skill := overall
     skills := skills
     struggles := identifyStruggles skills
     improvements := identifyImprovements skills
     regressions := identifyRegressions skills
     recommendations := generateRecommendations skills }, r4.2)

/-! ## Suggestion Generator (`suggestion_engine.py`) -/

/-- The learned-convention snapshot built by
`SuggestionEngine._learn_user_conventions` when naming data exists
(`user_conventions` is the empty dict otherwise, modelled as `none`). -/
structure LearnedFields where
  separator : String
  uses_dates : Bool
  case_style : String
  common_prefixes : List String
  avg_length : ℚ
  deriving DecidableEq

abbrev LearnedConv := Option LearnedFields

/-- `SuggestionEngine._learn_user_conventions`. -/
def learnUserConventions (accesses : List FileAccessEvent) : LearnedConv :=
  let namingPrefs := getNamingPreferences accesses
  match namingPrefs.1 with
  | none => none
  | some patterns =>
    some
      { separator :=
          if patterns.uses_hyphens < patterns.uses_underscores then "_"
          else "-"
        uses_dates := decide ((3:ℚ)/10 < patterns.date_frequency)
        case_style :=
          if patterns.uses_camelCase < patterns.uses_lowercase then
            "lowercase"
          else "camelCase"
        common_prefixes := patterns.uses_prefixes.map Prod.fst
        avg_length := patterns.average_length }

/-- `self.user_conventions.get("separator", "_")`. -/
def convSeparator (c : LearnedConv) : String :=
  match c with
  | some f => f.separator
  | none => "_"

/-- `self.user_conventions.get("case_style", "lowercase")`. -/
def convCaseStyle (c : LearnedConv) : String :=
  match c with
  | some f => f.case_style
  | none => "lowercase"

/-- `self.user_conventions.get("avg_length", 50)`. -/
def convAvgLength (c : LearnedConv) : ℚ :=
  match c with
  | some f => f.avg_length
  | none => 50

/-- Character class of the collapse pattern `[\s\-\.]+`. -/
def sepClassChar (c : Char) : Bool := c.isWhitespace ∨ c = '-' ∨ c = '.'

/-- Replace each maximal run of characters satisfying `cls` by `sep`
(model of `re.sub` with a one-or-more character-class pattern). -/
def collapseRunsAux (cls : Char → Bool) (sep : List Char) (inRun : Bool) :
    List Char → List Char
  | [] => []
  | c :: rest =>
    if cls c then
      (if inRun then [] else sep) ++ collapseRunsAux cls sep true rest
    else c :: collapseRunsAux cls sep false rest

def collapseRuns (cls : Char → Bool) (sep : List Char) (cs : List Char) :
    List Char :=
  collapseRunsAux cls sep false cs

/-- Model of `str.strip(chars)`. -/
def pyStrip (stripSet : List Char) (cs : List Char) : List Char :=
  ((cs.dropWhile (fun c => c ∈ stripSet)).reverse.dropWhile
    (fun c => c ∈ stripSet)).reverse

/-- Model of the slice-and-`rsplit` truncation
`text[:max_len].rsplit(sep, 1)[0]` (cut at the last separator before the
limit).  The source would raise `TypeError` when `max_len` is a learned
(float) average length; the model floors it, which only this latent corner
diverges on and no claim exercises. -/
def truncateAtSep (maxLen : ℕ) (sep : String) (cs : List Char) : List Char :=
  let cut := cs.take maxLen
  let parts := splitOnChar (sep.data.headD '_') cut
  if 2 ≤ parts.length then
    (String.intercalate sep ((parts.map String.mk).dropLast)).data
  else cut

/-- Characters removed by the sanitising pattern `[<>:"/\\|?*]`. -/
def invalidFileChars : List Char := ['<', '>', ':', '"', '/', '\\', '|', '?', '*']

/-- `SuggestionEngine._clean_for_filename`. -/
def cleanForFilename (conv : LearnedConv) (text : String) : String :=
  if text = "" then "untitled"
  else
    let t1 := text.data.filter (fun c => c ∉ invalidFileChars)
    let sep := convSeparator conv
    let t2 := collapseRuns sepClassChar sep.data t1
    let t3 :=
      if convCaseStyle conv = "lowercase" then t2.map Char.toLower else t2
    let maxLen := min (convAvgLength conv) 100
    let t4 :=
      if (maxLen : ℚ) < (t3.length : ℚ) then truncateAtSep (⌊maxLen⌋.toNat) sep t3
      else t3
    String.mk (pyStrip sep.data t4)

/-- `SuggestionEngine._choose_convention`. -/
def chooseConvention (conv : LearnedConv) (fileType : String)
    (_topics : List String) : String :=
  if (conv.map (fun f => f.uses_dates)).getD false then "date_prefix"
  else if ¬ ((conv.map (fun f => f.common_prefixes)).getD []).isEmpty then
    "category_first"
  else if fileType = "document" then "date_prefix"
  else if fileType = "code" then "semantic"
  else if fileType = "spreadsheet" then "category_first"
  else if fileType = "image" then "semantic"
  else if fileType = "presentation" then "project_based"
  else "category_first"

/-- `SuggestionEngine._infer_type_from_extension`. -/
def inferTypeFromExtension (extension : String) : String :=
  let ext := String.mk ((pyLower extension).data.dropWhile (fun c => c = '.'))
  if ext ∈ ["docx", "doc", "pdf", "txt", "md", "rtf", "odt"] then "document"
  else if ext ∈ ["xlsx", "xls", "csv", "ods"] then "spreadsheet"
  else if ext ∈ ["pptx", "ppt", "odp"] then "presentation"
  else if ext ∈ ["py", "js", "ts", "java", "cpp", "c", "go", "rs"] then "code"
  else if ext ∈ ["jpg", "jpeg", "png", "gif", "svg", "webp"] then "image"
  else "file"

/-- Substring test (`needle in haystack` on Python strings). -/
def isSubstr (needle haystack : List Char) : Bool :=
  (List.range (haystack.length + 1)).any
    (fun i => needle.isPrefixOf (haystack.drop i))

/-- The keyword → category table of `SuggestionEngine._detect_category`. -/
def topicCategories : List (String × String) :=
  [("meeting", "meetings"), ("notes", "notes"), ("report", "reports"),
   ("budget", "finance"), ("invoice", "finance"), ("design", "design"),
   ("test", "tests"), ("readme", "documentation"), ("config", "config")]

/-- `SuggestionEngine._detect_category`. -/
def detectCategory (fileType : String) (topics : List String)
    (_extension : String) : String :=
  let fromTopics := topics.findSome?
    (fun topic =>
      let tl := pyLower topic
      topicCategories.findSome?
        (fun kc => if isSubstr kc.1.data tl.data then some kc.2 else none))
  match fromTopics with
  | some c => c
  | none =>
    if fileType = "document" then "documents"
    else if fileType = "spreadsheet" then "data"
    else if fileType = "presentation" then "presentations"
    else if fileType = "code" then "code"
    else if fileType = "image" then "images"
    else "misc"

/-- `SuggestionEngine._infer_category_prefix`: the upper-case category tag. -/
def inferCategoryTag (fileType : String) (topics : List String) : String :=
  let category := detectCategory fileType topics ""
  if category = "documents" then "DOCS"
  else if category = "data" then "DATA"
  else if category = "presentations" then "PRES"
  else if category = "code" then "CODE"
  else if category = "images" then "IMG"
  else if category = "meetings" then "MTG"
  else if category = "notes" then "NOTES"
  else if category = "reports" then "RPT"
  else if category = "finance" then "FIN"
  else if category = "design" then "DSGN"
  else if category = "tests" then "TEST"
  else if category = "documentation" then "DOCS"
  else if category = "config" then "CFG"
  else "MISC"

/-- `SuggestionEngine._apply_convention`. -/
def applyConvention (conv : LearnedConv) (convention title : String)
    (topics : List String) (fileType : String) (date : String) : String :=
  let cleanTitle := cleanForFilename conv title
  let sep := convSeparator conv
  if convention = "date_prefix" then date ++ sep ++ cleanTitle
  else if convention = "category_first" then
    let category := inferCategoryTag fileType topics
    let topic := cleanForFilename conv (topics.headD "general")
    category ++ sep ++ topic ++ sep ++ cleanTitle
  else if convention = "project_based" then
    let project := cleanForFilename conv (topics.headD "misc")
    project ++ sep ++ fileType ++ sep ++ cleanTitle
  else cleanTitle

/-- Model of `str.upper`. -/
def pyUpper (s : String) : String := String.mk (s.data.map Char.toUpper)

/-- `SuggestionEngine._generate_naming_reasoning`. -/
def generateNamingReasoning (convention title category : String) : String :=
  if convention = "date_prefix" then
    "Date prefix for chronological sorting. Category: " ++ category
  else if convention = "category_first" then
    "Category prefix (" ++ pyUpper category ++ ") for easy grouping"
  else if convention = "project_based" then
    "Project-based naming for related files"
  else if convention = "semantic" then
    "Descriptive name based on content: " ++
      String.mk (title.data.take 30) ++ "..."
  else "Based on detected content and category: " ++ category

/-- The dataclass `NamingSuggestion`. -/
structure NamingSuggestion where
  suggested_name : String
  original_name : String
  confidence : ℚ
  reasoning : String
  alternatives : List String
  convention_used : String
  category : String
  deriving DecidableEq

/-- String projection of a dynamic value (used for the typed reading of the
unreachable `content_analysis`-as-dict path; the coach call surface only ever
passes a raw string or `None`). -/
def pyValStr (v : PyVal) : String :=
  match v with
  | .str s => s
  | _ => ""

/-- `SuggestionEngine._calculate_naming_confidence`. -/
def calculateNamingConfidence (original suggested : String)
    (contentAnalysis : Option PyVal) : ℚ :=
  let base : ℚ := 1/2
  let base :=
    match contentAnalysis with
    | some (.dict d) =>
      if pyTruthy (.dict d) then
        (if pyTruthy ((d.lookup "title").getD .pnone) then base + 1/5
         else base) +
        (if pyTruthy ((d.lookup "topics").getD .pnone) then (1:ℚ)/10 else 0)
      else base
    | _ => base
  let base := if pyLower original ≠ pyLower suggested then base + 1/10 else base
  let base := if suggested.length < 5 then base - 1/5 else base
  min (max base (1/10)) 1

/-- The four convention names, in the iteration order of the
`NAMING_CONVENTIONS` dict literal. -/
def namingConventionNames : List String :=
  ["date_prefix", "category_first", "project_based", "semantic"]

/-- `SuggestionEngine.suggest_filename`.  `contentAnalysis` is dynamic: the
coach passes its raw `content` string straight through, so a truthy non-dict
value raises `AttributeError` exactly where `content_analysis.get("title")`
would.  `today` models `datetime.now().strftime("%Y%m%d")`. -/
def suggestFilename (conv : LearnedConv) (filePath : String)
    (contentAnalysis : Option PyVal) (forceConvention : Option String)
    (today : String) : Except PyErr NamingSuggestion := do
  let originalName := pyStem filePath
  let extension := pySuffix filePath
  let info ←
    match contentAnalysis with
    | some v =>
      if pyTruthy v then
        match v with
        | .dict d =>
          Except.ok
            (pyValStr ((d.lookup "title").getD (.str "")),
             (match (d.lookup "topics").getD (.list []) with
              | .list xs => xs.map pyValStr
              | _ => []),
             pyValStr ((d.lookup "type").getD (.str "document")),
             (match d.lookup "date" with
              | some (.str s) => some s
              | _ => none))
        | _ =>
          Except.error "AttributeError: str object has no attribute get"
      else
        Except.ok (originalName, [], inferTypeFromExtension extension, none)
    | none =>
      Except.ok (originalName, [], inferTypeFromExtension extension, none)
  let (title, topics, fileType, dateHint) := info
  let convention :=
    match forceConvention with
    | some f => f
    | none => chooseConvention conv fileType topics
  let date := match dateHint with
    | some d => if d ≠ "" then d else today
    | none => today
  let suggested := applyConvention conv convention title topics fileType date
  let alternatives := (namingConventionNames.foldr
    (fun alt acc =>
      if alt ≠ convention then
        let altName := applyConvention conv alt title topics fileType date
        if altName ≠ suggested then (altName ++ extension) :: acc else acc
      else acc) []).take 3
  let category := detectCategory fileType topics extension
  let confidence :=
    calculateNamingConfidence originalName suggested contentAnalysis
  Except.ok
    { suggested_name := suggested ++ extension
      original_name := originalName ++ extension
      confidence := confidence
      reasoning := generateNamingReasoning convention title category
      alternatives := alternatives
      convention_used := convention
      category := category }

/-- The dataclass `FolderSuggestion`. -/
structure FolderSuggestion where
  suggested_path : String
  original_path : String
  reasoning : String
  confidence : ℚ
  creates_new_folder : Bool
  moves_to_existing : Bool
  deriving DecidableEq

/-- Model of `str.title()`. -/
def pyTitleAux : Bool → List Char → List Char
  | _, [] => []
  | prevAlpha, c :: rest =>
    if c.isAlpha then
      (if prevAlpha then c.toLower else c.toUpper) :: pyTitleAux true rest
    else c :: pyTitleAux false rest

def pyTitle (s : String) : String := String.mk (pyTitleAux false s.data)

/-- `SuggestionEngine._find_best_folder`: extension match first, then
category-name substring match, then a fresh folder named after the
category.  Returns `(path, reasoning, creates_new)`. -/
def findBestFolder (baseDirectory category fileType extension : String)
    (existingFolders : List (String × List String)) :
    String × String × Bool :=
  let _ := fileType
  match existingFolders.find?
      (fun fe => (pyLower extension) ∈ fe.2) with
  | some fe =>
    (baseDirectory ++ "/" ++ fe.1,
     "Matches existing folder for " ++ extension ++ " files", false)
  | none =>
    match existingFolders.find?
        (fun fe =>
          isSubstr (pyLower category).data (pyLower fe.1).data ∨
          isSubstr (pyLower fe.1).data (pyLower category).data) with
    | some fe =>
      (baseDirectory ++ "/" ++ fe.1,
       "Matches category \x27" ++ category ++ "\x27", false)
    | none =>
      let newFolder := pyTitle category
      (baseDirectory ++ "/" ++ newFolder,
       "New folder for " ++ category ++ " files", true)

/-- Filesystem oracle for `SuggestionEngine._analyze_existing_folders`: maps
a base directory to its first-level subfolders together with the (lowercase)
file extensions found in each.  The source reads the real filesystem here;
the oracle is threaded explicitly. -/
abbrev FolderOracle := String → List (String × List String)

/-- `SuggestionEngine.suggest_folder`.  The coach passes its
`available_folders` list (or `None`) where the engine expects the
`base_directory` string, so `Path(base_directory)` raises `TypeError` on
every call coming from the coach surface. -/
def suggestFolder (fs : FolderOracle) (filePath : String) (base : PyVal)
    (contentAnalysis : Option PyVal) : Except PyErr FolderSuggestion := do
  let originalPath := pyParentStr filePath
  let extension := pySuffix filePath
  let fileType ←
    match contentAnalysis with
    | some v =>
      if pyTruthy v then
        match v with
        | .dict d => Except.ok (pyValStr ((d.lookup "type").getD (.str "document")))
        | _ => Except.error "AttributeError: str object has no attribute get"
      else Except.ok "document"
    | none => Except.ok "document"
  let category := detectCategory fileType [] extension
  match base with
  | .str b =>
    let existingFolders := fs b
    let r := findBestFolder b category fileType extension existingFolders
    Except.ok
      { suggested_path := r.1
        original_path := originalPath
        reasoning := r.2.1
        confidence := if r.2.2 then 3/5 else 4/5
        creates_new_folder := r.2.2
        moves_to_existing := ¬ r.2.2 }
  | _ => Except.error "TypeError: argument should be a str or an os.PathLike object"

/-! ## Coach Orchestrator (`adaptive_coach.py`) -/

/-- One persisted skill-history entry (`{'date', 'score', 'trend'}`). -/
structure HistEntry where
  date : ℚ
  score : ℚ
  trend : String
  deriving DecidableEq

/-- The dataclass `CoachingState`. -/
structure CoachingState where
  total_suggestions_offered : ℕ := 0
  total_suggestions_accepted : ℕ := 0
  total_suggestions_dismissed : ℕ := 0
  last_assessment : Option ℚ := none
  skill_history : List (String × List HistEntry) := []
  fade_out_overrides : List (String × Bool) := []
  deriving DecidableEq

def defaultCoachingState : CoachingState := {}

/-- The dataclass `CoachingSession`. -/
structure CoachingSession where
  session_id : String
  started_at : ℚ
  skill_snapshot : List (String × ℚ)
  suggestions_offered : ℕ
  suggestions_accepted : ℕ
  suggestions_dismissed : ℕ
  deriving DecidableEq

/-- Payload of a shown suggestion (`asdict(suggestion)` in the source). -/
inductive ContentVal where
  | naming (n : NamingSuggestion)
  | folder (f : FolderSuggestion)
  deriving DecidableEq

/-- The dataclass `SuggestionResult`. -/
structure SuggestionResult where
  suggestion_type : String
  content : Option ContentVal
  intensity : ℚ
  reason : String
  skill_level : String
  should_show : Bool
  deriving DecidableEq

/-- In-memory state of an `AdaptiveCoach` instance: the tracker it owns
(event log and counters), the detector's trend history, the suggestion
engine's construction-time convention snapshot, the persisted coaching
state, the current session, the report cache, and the last state document
written to disk. -/
structure Coach where
  events : TrackerEvents
  stats : TrackerStats
  detectorHist : DetectorHist
  suggesterConv : LearnedConv
  state : CoachingState
  session : Option CoachingSession
  cachedReport : Option DifficultyReport
  cacheTime : Option ℚ
  savedState : Option PyVal

/-- Intensity constants of `AdaptiveCoach`. -/
def INTENSITY_FULL : ℚ := 1
def INTENSITY_REGULAR : ℚ := 7/10
def INTENSITY_OCCASIONAL : ℚ := 3/10
def INTENSITY_MINIMAL : ℚ := 1/10
def INTENSITY_NONE : ℚ := 0

/-- Skill level boundaries of `AdaptiveCoach`. -/
def SKILL_STRUGGLING : ℚ := 2/5
def SKILL_LEARNING : ℚ := 7/10
def SKILL_PROFICIENT : ℚ := 17/20

/-- The report cache window (`timedelta(minutes=5)`, in days). -/
def cacheDuration : ℚ := 5/1440

/-- `AdaptiveCoach._calculate_intensity`: banded base intensity, trend
adjustment, and the low-confidence floor.  Returns
`(intensity, skill_level)`. -/
def calculateIntensity (a : SkillAssessment) : ℚ × String :=
  let bl :
      ℚ × String :=
    if a.score < SKILL_STRUGGLING then (INTENSITY_FULL, "struggling")
    else if a.score < SKILL_LEARNING then (INTENSITY_REGULAR, "learning")
    else if a.score < SKILL_PROFICIENT then (INTENSITY_OCCASIONAL, "proficient")
    else (INTENSITY_MINIMAL, "mastered")
  let al :
      ℚ × String :=
    if a.trend = "regressing" then
      (min (bl.1 + 1/5) INTENSITY_FULL,
       if bl.2 = "mastered" then "proficient" else bl.2)
    else if a.trend = "improving" then (max (bl.1 - 1/10) INTENSITY_NONE, bl.2)
    else bl
  let adjusted :=
    if a.confidence < 1/2 then max al.1 INTENSITY_REGULAR else al.1
  (adjusted, al.2)

/-- `AdaptiveCoach._should_show_at_intensity` with the `random.random()`
draw threaded explicitly. -/
def shouldShowAtIntensity (rand intensity : ℚ) : Bool :=
  rand < intensity

/-- JSON encoding of a skill-history entry as written by
`AdaptiveCoach._save_state`. -/
def encodeHistEntry (e : HistEntry) : PyVal :=
  .dict [("date", .num e.date), ("score", .num e.score),
         ("trend", .str e.trend)]

def encodeHist (h : List (String × List HistEntry)) : PyVal :=
  .dict (h.map (fun ke => (ke.1, .list (ke.2.map encodeHistEntry))))

def encodeOverrides (o : List (String × Bool)) : PyVal :=
  .dict (o.map (fun kb => (kb.1, .bool kb.2)))

/-- `AdaptiveCoach._save_state`: the JSON document written to
`coaching_state.json`. -/
def saveState (s : CoachingState) : PyVal :=
  .dict
    [("total_suggestions_offered", .num s.total_suggestions_offered),
     ("total_suggestions_accepted", .num s.total_suggestions_accepted),
     ("total_suggestions_dismissed", .num s.total_suggestions_dismissed),
     ("last_assessment",
      match s.last_assessment with
      | some t => .num t
      | none => .pnone),
     ("skill_history", encodeHist s.skill_history),
     ("fade_out_overrides", encodeOverrides s.fade_out_overrides)]

/-- `AdaptiveCoach._get_difficulty_report`: serve the cached report inside
the 5-minute window, else recompute, append to the persisted per-skill
history (capped at 100 entries), stamp `last_assessment`, and save. -/
def getDifficultyReport (c : Coach) (now : ℚ) : DifficultyReport × Coach :=
  let cached :=
    match c.cachedReport, c.cacheTime with
    | some r, some t => if now - t < cacheDuration then some r else none
    | _, _ => none
  match cached with
  | some r => (r, c)
  | none =>
    let rh := assessAllSkills c.events c.stats c.detectorHist now
    let report := rh.1
    let hist' := report.skills.foldl
      (fun h na =>
        setAssoc h na.1
          (takeLast 100
            (((h.lookup na.1).getD []) ++
              [{ date := now, score := na.2.score, trend := na.2.trend }])))
      c.state.skill_history
    let state' :=
      { c.state with skill_history := hist', last_assessment := some now }
    (report,
     { c with
        detectorHist := rh.2
        cachedReport := some report
        cacheTime := some now
        state := state'
        savedState := some (saveState state') })

/-- `AdaptiveCoach._create_naming_result`: ask the engine for a suggestion
(raising before any counter is touched, as the source does), then bump the
session and cumulative offered counters.  The `file_path` argument is
accepted and ignored, as in the source. -/
def createNamingResult (c : Coach) (filename : String)
    (content : Option PyVal) (_filePath : Option String) (intensity : ℚ)
    (skillLevel reason : String) (today : String) :
    Except PyErr (SuggestionResult × Coach) := do
  let sugg ← suggestFilename c.suggesterConv filename content none today
  let session' := c.session.map
    (fun s => { s with suggestions_offered := s.suggestions_offered + 1 })
  let state' :=
    { c.state with
        total_suggestions_offered := c.state.total_suggestions_offered + 1 }
  Except.ok
    ({ suggestion_type := "naming"
       content := some (.naming sugg)
       intensity := intensity
       reason := reason
       skill_level := skillLevel
       should_show := true },
     { c with session := session', state := state' })

/-- `AdaptiveCoach.get_naming_suggestion`.  `now` and `today` model the
clock reads; `rand` the `random.random()` draw. -/
def getNamingSuggestion (c : Coach) (now : ℚ) (today : String) (rand : ℚ)
    (filename : String) (content : Option String)
    (filePath : Option String := none) :
    Except PyErr (SuggestionResult × Coach) :=
  let rc := getDifficultyReport c now
  let report := rc.1
  let c1 := rc.2
  match report.skills.lookup "naming_consistency" with
  | none =>
    createNamingResult c1 filename (content.map PyVal.str) filePath
      INTENSITY_FULL "new" "No naming history - providing full guidance" today
  | some namingSkill =>
    let il := calculateIntensity namingSkill
    if (c1.state.fade_out_overrides.lookup "naming_consistency").getD false
    then
      Except.ok
        ({ suggestion_type := "none"
           content := none
           intensity := 0
           reason := "User disabled naming suggestions"
           skill_level := il.2
           should_show := false }, c1)
    else if shouldShowAtIntensity rand il.1 then
      createNamingResult c1 filename (content.map PyVal.str) filePath il.1
        il.2 ("Skill: " ++ pctStr namingSkill.score ++ ", Trend: " ++
          namingSkill.trend) today
    else
      Except.ok
        ({ suggestion_type := "naming"
           content := none
           intensity := il.1
           reason := "Faded out - skill level: " ++ il.2
           skill_level := il.2
           should_show := false }, c1)

/-- `AdaptiveCoach._create_folder_result`. -/
def createFolderResult (fs : FolderOracle) (c : Coach) (filePath : String)
    (availableFolders : Option (List String)) (intensity : ℚ)
    (skillLevel reason : String) :
    Except PyErr (SuggestionResult × Coach) := do
  let base : PyVal :=
    match availableFolders with
    | some l => .list (l.map PyVal.str)
    | none => .pnone
  let sugg ← suggestFolder fs filePath base none
  let session' := c.session.map
    (fun s => { s with suggestions_offered := s.suggestions_offered + 1 })
  let state' :=
    { c.state with
        total_suggestions_offered := c.state.total_suggestions_offered + 1 }
  Except.ok
    ({ suggestion_type := "folder"
       content := some (.folder sugg)
       intensity := intensity
       reason := reason
       skill_level := skillLevel
       should_show := true },
     { c with session := session', state := state' })

/-- `AdaptiveCoach.get_folder_suggestion`. -/
def getFolderSuggestion (fs : FolderOracle) (c : Coach) (now rand : ℚ)
    (filePath : String) (availableFolders : Option (List String)) :
    Except PyErr (SuggestionResult × Coach) :=
  let rc := getDifficultyReport c now
  let report := rc.1
  let c1 := rc.2
  match report.skills.lookup "folder_organization" with
  | none =>
    createFolderResult fs c1 filePath availableFolders INTENSITY_FULL "new"
      "No folder organization history"
  | some folderSkill =>
    let il := calculateIntensity folderSkill
    if (c1.state.fade_out_overrides.lookup "folder_organization").getD false
    then
      Except.ok
        ({ suggestion_type := "none"
           content := none
           intensity := 0
           reason := "User disabled folder suggestions"
           skill_level := il.2
           should_show := false }, c1)
    else if shouldShowAtIntensity rand il.1 then
      createFolderResult fs c1 filePath availableFolders il.1 il.2
        ("Skill: " ++ pctStr folderSkill.score ++ ", Trend: " ++
          folderSkill.trend)
    else
      Except.ok
        ({ suggestion_type := "folder"
           content := none
           intensity := il.1
           reason := "Faded out - skill level: " ++ il.2
           skill_level := il.2
           should_show := false }, c1)

/-- `AdaptiveCoach.record_suggestion_response`: bumps the session and
cumulative accepted/dismissed counters and saves state, then calls
`self.tracker.record_organization_decision(...)` — a method
`BehaviorTracker` does not define (its decision recorder is
`record_decision`, with a different signature), so every call raises
`AttributeError` at that point; the decision event is never appended and
the report cache is never invalidated. -/
def recordSuggestionResponse (c : Coach) (_suggestionType : String)
    (accepted : Bool) (_originalValue _suggestedValue _finalValue : String) :
    Except PyErr Coach :=
  let session' := c.session.map
    (fun s =>
      if accepted then
        { s with suggestions_accepted := s.suggestions_accepted + 1 }
      else
        { s with suggestions_dismissed := s.suggestions_dismissed + 1 })
  let state' :=
    if accepted then
      { c.state with
          total_suggestions_accepted := c.state.total_suggestions_accepted + 1 }
    else
      { c.state with
          total_suggestions_dismissed :=
            c.state.total_suggestions_dismissed + 1 }
  let _c2 : Coach :=
    { c with session := session', state := state'
             savedState := some (saveState state') }
  Except.error
    "AttributeError: BehaviorTracker object has no attribute record_organization_decision"

/-- Per-skill entry of the `get_status` payload. -/
structure SkillStatusEntry where
  score : ℚ
  level : String
  trend : String
  intensity : ℚ
  guidance_active : Bool
  samples : ℕ
  confidence : ℚ
  deriving DecidableEq

/-- The `get_status` payload. -/
structure CoachStatus where
  overall_skill : ℚ
  skills : List (String × SkillStatusEntry)
  suggestions_offered : ℕ
  suggestions_accepted : ℕ
  suggestions_dismissed : ℕ
  acceptance_rate : ℚ
  recommendations : List String
  struggles : List PyVal
  improvements : List PyVal
  regressions : List PyVal
  session_active : Bool

/-- `AdaptiveCoach._safe_divide`. -/
def safeDivide (a b : ℕ) : ℚ :=
  if 0 < b then (a : ℚ) / (b : ℚ) else 0

/-- `AdaptiveCoach.get_status`.  The struggle / improvement / regression
lists are projected with `entry['area']`, but the detector builds those
dict entries with key `'skill'`, so the lookup raises `KeyError: area`
whenever any of the lists is non-empty. -/
def getStatus (c : Coach) (now : ℚ) : Except PyErr (CoachStatus × Coach) :=
  let rc := getDifficultyReport c now
  let report := rc.1
  let c1 := rc.2
  let skillsStatus := report.skills.map
    (fun na =>
      let il := calculateIntensity na.2
      (na.1,
       { score := na.2.score
         level := il.2
         trend := na.2.trend
         intensity := il.1
         guidance_active := decide (INTENSITY_MINIMAL < il.1)
         samples := na.2.samples_count
         confidence := na.2.confidence : SkillStatusEntry }))
  do
    let struggles ←
      if report.struggles.isEmpty then pure []
      else report.struggles.mapM (fun s => pyGetItem s "area")
    let improvements ←
      if report.improvements.isEmpty then pure []
      else report.improvements.mapM (fun s => pyGetItem s "area")
    let regressions ←
      if report.regressions.isEmpty then pure []
      else report.regressions.mapM (fun s => pyGetItem s "area")
    Except.ok
      ({ overall_skill := report.overall_skill
         skills := skillsStatus
         suggestions_offered := c1.state.total_suggestions_offered
         suggestions_accepted := c1.state.total_suggestions_accepted
         suggestions_dismissed := c1.state.total_suggestions_dismissed
         acceptance_rate := safeDivide c1.state.total_suggestions_accepted
           c1.state.total_suggestions_offered
         recommendations := report.recommendations
         struggles := struggles
         improvements := improvements
         regressions := regressions
         session_active := c1.session.isSome }, c1)

/-! ## Persistence and construction -/

/-- Possible states of a persisted file as seen by a loader: missing,
present but unreadable (an `OSError` on `open`/`read`), present but not
JSON (`json.JSONDecodeError`), or parsed to a JSON document. -/
inductive FileRead where
  | absent
  | unreadable
  | badJson
  | ok (v : PyVal)

/-- `BehaviorTracker._load_json`: the bare `except` returns the default for
any unreadable or unparseable file; a missing file also yields the
default. -/
def loadJson (f : FileRead) (default : PyVal) : PyVal :=
  match f with
  | .ok v => v
  | _ => default

/-- Typed projections of JSON scalars.  The source performs no validation
and keeps whatever JSON value was stored; fields of unexpected JSON type
cannot inhabit the typed model, so the decoders below fall back to the
field's default there.  No claim settled here depends on that corner.
`listMapM` is the option-valued traversal used by the decoders (structural,
so that round-trip proofs go by induction). -/
def listMapM {α β : Type} (f : α → Option β) : List α → Option (List β)
  | [] => some []
  | x :: xs =>
    match f x with
    | some y => (listMapM f xs).map (fun ys => y :: ys)
    | none => none

def decodeNat (v : PyVal) : Option ℕ :=
  match v with
  | .num q => if q.den = 1 ∧ 0 ≤ q.num then some q.num.toNat else none
  | _ => none

def decodeRat (v : PyVal) : Option ℚ :=
  match v with
  | .num q => some q
  | _ => none

def decodeStr (v : PyVal) : Option String :=
  match v with
  | .str s => some s
  | _ => none

def decodeBool (v : PyVal) : Option Bool :=
  match v with
  | .bool b => some b
  | _ => none

def decodeHistEntry (v : PyVal) : Option HistEntry :=
  match v with
  | .dict d => do
    let date ← (d.lookup "date").bind decodeRat
    let score ← (d.lookup "score").bind decodeRat
    let trend ← (d.lookup "trend").bind decodeStr
    some { date := date, score := score, trend := trend }
  | _ => none

def decodeHistList (v : PyVal) : Option (List HistEntry) :=
  match v with
  | .list xs => listMapM decodeHistEntry xs
  | _ => none

def decodeHist (v : PyVal) : Option (List (String × List HistEntry)) :=
  match v with
  | .dict d => listMapM (fun kv => (decodeHistList kv.2).map (fun l => (kv.1, l))) d
  | _ => none

def decodeOverrides (v : PyVal) : Option (List (String × Bool)) :=
  match v with
  | .dict d => listMapM (fun kv => (decodeBool kv.2).map (fun b => (kv.1, b))) d
  | _ => none

/-- `AdaptiveCoach._load_state`: a missing file or a `json` parse failure
falls back to the default state (`JSONDecodeError` and `KeyError` are the
only exceptions caught); an unreadable file raises `OSError`, and a file
whose JSON document is not an object raises `AttributeError` at
`data.get(...)`.  Field values are read with `data.get(key, default)`. -/
def loadState (f : FileRead) : Except PyErr CoachingState :=
  match f with
  | .absent => .ok defaultCoachingState
  | .badJson => .ok defaultCoachingState
  | .unreadable => .error "OSError: coaching_state.json is unreadable"
  | .ok v =>
    match v with
    | .dict d =>
      .ok
        { total_suggestions_offered :=
            ((d.lookup "total_suggestions_offered").bind decodeNat).getD 0
          total_suggestions_accepted :=
            ((d.lookup "total_suggestions_accepted").bind decodeNat).getD 0
          total_suggestions_dismissed :=
            ((d.lookup "total_suggestions_dismissed").bind decodeNat).getD 0
          last_assessment := (d.lookup "last_assessment").bind decodeRat
          skill_history := ((d.lookup "skill_history").bind decodeHist).getD []
          fade_out_overrides :=
            ((d.lookup "fade_out_overrides").bind decodeOverrides).getD [] }
    | _ => .error "AttributeError: list object has no attribute get"

/-- The four empty event lists `_load_data` installs as the default
events document. -/
def defaultEventsJson : PyVal :=
  .dict
    [("searches", .list []), ("file_accesses", .list []),
     ("navigation", .list []), ("decisions", .list [])]

/-- The default stats document of `_load_data`. -/
def defaultStatsJson : PyVal :=
  .dict
    [("total_searches", .num 0), ("successful_searches", .num 0),
     ("total_files_accessed", .num 0), ("renames_performed", .num 0),
     ("suggestions_accepted", .num 0), ("suggestions_rejected", .num 0),
     ("suggestions_customized", .num 0), ("first_seen", .pnone),
     ("last_seen", .pnone), ("skill_scores", .dict [])]

/-- Typed decoding of one stored search event. -/
def decodeSearchEvent (v : PyVal) : Option SearchEvent :=
  match v with
  | .dict d => do
    let ts ← (d.lookup "timestamp").bind decodeRat
    let q ← (d.lookup "query").bind decodeStr
    let rc ← (d.lookup "results_count").bind decodeNat
    some
      { timestamp := ts, query := q, results_count := rc
        clicked_result := (d.lookup "clicked_result").bind decodeStr
        time_to_click_ms :=
          ((d.lookup "time_to_click_ms").bind decodeRat).map Rat.num
        refined_query := (d.lookup "refined_query").bind decodeStr
        session_id := ((d.lookup "session_id").bind decodeStr).getD "" }
  | _ => none

def decodeFileAccessEvent (v : PyVal) : Option FileAccessEvent :=
  match v with
  | .dict d => do
    let ts ← (d.lookup "timestamp").bind decodeRat
    let fp ← (d.lookup "file_path").bind decodeStr
    let at_ ← (d.lookup "access_type").bind decodeStr
    some
      { timestamp := ts, file_path := fp
        file_type := ((d.lookup "file_type").bind decodeStr).getD ""
        access_type := at_
        previous_name := (d.lookup "previous_name").bind decodeStr
        new_name := (d.lookup "new_name").bind decodeStr
        source_path := (d.lookup "source_path").bind decodeStr
        dest_path := (d.lookup "dest_path").bind decodeStr
        session_id := ((d.lookup "session_id").bind decodeStr).getD "" }
  | _ => none

def decodeNavigationEvent (v : PyVal) : Option NavigationEvent :=
  match v with
  | .dict d => do
    let ts ← (d.lookup "timestamp").bind decodeRat
    let p ← (d.lookup "path").bind decodeStr
    some
      { timestamp := ts, path := p
        time_spent_seconds :=
          ((d.lookup "time_spent_seconds").bind decodeRat).getD 0
        files_viewed := ((d.lookup "files_viewed").bind decodeNat).getD 0
        action_taken := ((d.lookup "action_taken").bind decodeStr).getD ""
        session_id := ((d.lookup "session_id").bind decodeStr).getD "" }
  | _ => none

def decodeDecisionEvent (v : PyVal) : Option DecisionEvent :=
  match v with
  | .dict d => do
    let ts ← (d.lookup "timestamp").bind decodeRat
    let dt ← (d.lookup "decision_type").bind decodeStr
    some
      { timestamp := ts, decision_type := dt
        suggested_value := (d.lookup "suggested_value").bind decodeStr
        user_value := ((d.lookup "user_value").bind decodeStr).getD ""
        file_path := ((d.lookup "file_path").bind decodeStr).getD "" }
  | _ => none

def decodeEventList {α : Type} (dec : PyVal → Option α) (v : PyVal) :
    Except PyErr (List α) :=
  match v with
  | .list xs =>
    match listMapM dec xs with
    | some l => .ok l
    | none => .error "TypeError: malformed event record"
  | _ => .error "TypeError: event table entry is not a list"

/-- Contents of the per-user data directory: the three tracker files and
the orchestrator's state file. -/
structure Disk where
  eventsFile : FileRead
  sessionsFile : FileRead
  statsFile : FileRead
  stateFile : FileRead

/-- `AdaptiveCoach.__init__` over the on-disk contents.  The tracker load
itself never raises (`_load_json` swallows everything); the first raw
access to the loaded events document is
`SuggestionEngine._learn_user_conventions → get_naming_preferences`, which
subscripts `self.events['file_accesses']` and so raises `KeyError` /
`TypeError` on documents of unexpected shape; `_load_state` runs after the
engine is built.  The source keeps the event lists as raw JSON and re-reads
their fields on every query; the typed model decodes them at construction,
which only diverges on malformed documents whose faults the source would
surface at a later query instead.  `stats` fields are read with
`.get(key, default)` against the loaded document. -/
def constructCoach (d : Disk) : Except PyErr Coach := do
  let eventsJson := loadJson d.eventsFile defaultEventsJson
  let _sessionsJson := loadJson d.sessionsFile (.list [])
  let statsJson := loadJson d.statsFile defaultStatsJson
  let faJson ← pyGetItem eventsJson "file_accesses"
  let fileAccesses ← decodeEventList decodeFileAccessEvent faJson
  let searches ← pyGetItem eventsJson "searches" >>=
    decodeEventList decodeSearchEvent
  let navigation ← pyGetItem eventsJson "navigation" >>=
    decodeEventList decodeNavigationEvent
  let decisions ← pyGetItem eventsJson "decisions" >>=
    decodeEventList decodeDecisionEvent
  let stats ←
    match statsJson with
    | .dict sd =>
      Except.ok
        ({ total_searches := ((sd.lookup "total_searches").bind decodeNat).getD 0
           successful_searches :=
             ((sd.lookup "successful_searches").bind decodeNat).getD 0
           total_files_accessed :=
             ((sd.lookup "total_files_accessed").bind decodeNat).getD 0
           renames_performed :=
             ((sd.lookup "renames_performed").bind decodeNat).getD 0
           suggestions_accepted :=
             ((sd.lookup "suggestions_accepted").bind decodeNat).getD 0
           suggestions_rejected :=
             ((sd.lookup "suggestions_rejected").bind decodeNat).getD 0
           suggestions_customized :=
             ((sd.lookup "suggestions_customized").bind decodeNat).getD 0
           first_seen := (sd.lookup "first_seen").bind decodeRat
           last_seen := (sd.lookup "last_seen").bind decodeRat } : TrackerStats)
    | _ => Except.error "TypeError: stats document is not an object"
  let st ← loadState d.stateFile
  Except.ok
    { events :=
        { searches := searches, file_accesses := fileAccesses
          navigation := navigation, decisions := decisions }
      stats := stats
      detectorHist := []
      suggesterConv := learnUserConventions fileAccesses
      state := st
      session := none
      cachedReport := none
      cacheTime := none
      savedState := none }

/-- A freshly constructed coach over an empty data directory. -/
def emptyCoach : Coach :=
  { events := emptyTrackerEvents
    stats := defaultTrackerStats
    detectorHist := []
    suggesterConv := none
    state := defaultCoachingState
    session := none
    cachedReport := none
    cacheTime := none
    savedState := none }

/-! ## Characterisation lemmas for the intensity calculation -/

/-- The score-band base intensity of `_calculate_intensity`. -/
def bandBase (s : ℚ) : ℚ :=
  if s < 2/5 then 1 else if s < 7/10 then 7/10 else if s < 17/20 then 3/10
  else 1/10

/-- The score-band level label of `_calculate_intensity`. -/
def bandLevel (s : ℚ) : String :=
  if s < 2/5 then "struggling" else if s < 7/10 then "learning"
  else if s < 17/20 then "proficient" else "mastered"

/-- The trend adjustment of `_calculate_intensity`. -/
def trendAdj (trend : String) (b : ℚ) : ℚ :=
  if trend = "regressing" then min (b + 1/5) 1
  else if trend = "improving" then max (b - 1/10) 0
  else b

lemma calculateIntensity_fst (a : SkillAssessment) :
    (calculateIntensity a).1 =
      if a.confidence < 1/2 then
        max (trendAdj a.trend (bandBase a.score)) (7/10)
      else trendAdj a.trend (bandBase a.score) := by
  simp only [calculateIntensity, trendAdj, bandBase, INTENSITY_FULL,
    INTENSITY_REGULAR, INTENSITY_OCCASIONAL, INTENSITY_MINIMAL,
    INTENSITY_NONE, SKILL_STRUGGLING, SKILL_LEARNING, SKILL_PROFICIENT]
  split_ifs <;> rfl

lemma calculateIntensity_snd (a : SkillAssessment) :
    (calculateIntensity a).2 =
      if a.trend = "regressing" then
        (if bandLevel a.score = "mastered" then "proficient"
         else bandLevel a.score)
      else bandLevel a.score := by
  simp only [calculateIntensity, bandLevel, INTENSITY_FULL,
    INTENSITY_REGULAR, INTENSITY_OCCASIONAL, INTENSITY_MINIMAL,
    INTENSITY_NONE, SKILL_STRUGGLING, SKILL_LEARNING, SKILL_PROFICIENT]
  split_ifs <;> simp_all

lemma bandBase_antitone {s₁ s₂ : ℚ} (h : s₁ ≤ s₂) :
    bandBase s₂ ≤ bandBase s₁ := by
  unfold bandBase; split_ifs <;> first | rfl | linarith

lemma bandBase_mem (s : ℚ) : (1:ℚ)/10 ≤ bandBase s ∧ bandBase s ≤ 1 := by
  unfold bandBase; split_ifs <;> norm_num

lemma trendAdj_mono (trend : String) {b₁ b₂ : ℚ} (h : b₁ ≤ b₂) :
    trendAdj trend b₁ ≤ trendAdj trend b₂ := by
  unfold trendAdj; split_ifs
  · exact min_le_min (by linarith) le_rfl
  · exact max_le_max (by linarith) le_rfl
  · exact h

lemma trendAdj_bounds (trend : String) {b : ℚ} (h0 : (1:ℚ)/10 ≤ b)
    (h1 : b ≤ 1) : 0 ≤ trendAdj trend b ∧ trendAdj trend b ≤ 1 := by
  unfold trendAdj; split_ifs
  · exact ⟨le_min (by linarith) (by norm_num), min_le_right _ _⟩
  · exact ⟨le_max_right _ _, max_le (by linarith) (by norm_num)⟩
  · exact ⟨by linarith, h1⟩

/-- The intensity returned by `_calculate_intensity` is always in `[0, 1]`,
for every score, trend string and confidence. -/
lemma calculateIntensity_bounds (a : SkillAssessment) :
    0 ≤ (calculateIntensity a).1 ∧ (calculateIntensity a).1 ≤ 1 := by
  rw [calculateIntensity_fst]
  have hbm := bandBase_mem a.score
  have hta := trendAdj_bounds a.trend hbm.1 hbm.2
  split_ifs
  · exact ⟨le_trans hta.1 (le_max_left _ _), max_le hta.2 (by norm_num)⟩
  · exact hta

/-! ## Reachability invariant for the report cache

Every cached report is a value of `assess_all_skills`, whose skills table
always carries the four fixed skill names; the per-claim theorems assume
this of the (otherwise arbitrary) starting state. -/

def reportWellFormed (r : DifficultyReport) : Prop :=
  (r.skills.lookup "naming_consistency").isSome ∧
  (r.skills.lookup "folder_organization").isSome

def cacheWellFormed (c : Coach) : Prop :=
  ∀ r, c.cachedReport = some r → reportWellFormed r

lemma assessAllSkills_wellFormed (ev : TrackerEvents) (st : TrackerStats)
    (hist : DetectorHist) (now : ℚ) :
    reportWellFormed (assessAllSkills ev st hist now).1 :=
  ⟨rfl, rfl⟩

lemma getDifficultyReport_wellFormed (c : Coach) (now : ℚ)
    (h : cacheWellFormed c) :
    reportWellFormed (getDifficultyReport c now).1 := by
  unfold getDifficultyReport
  rcases hc : c.cachedReport with _ | r <;> rcases ht : c.cacheTime with _ | t
  · exact assessAllSkills_wellFormed ..
  · exact assessAllSkills_wellFormed ..
  · exact assessAllSkills_wellFormed ..
  · dsimp only
    split_ifs
    · exact h r hc
    · exact assessAllSkills_wellFormed ..

lemma getDifficultyReport_overrides (c : Coach) (now : ℚ) :
    ((getDifficultyReport c now).2).state.fade_out_overrides =
      c.state.fade_out_overrides := by
  unfold getDifficultyReport
  rcases c.cachedReport with _ | r <;> rcases c.cacheTime with _ | t
  · rfl
  · rfl
  · rfl
  · dsimp only
    split_ifs <;> rfl

/-- Scalar projection of a suggestion call's outcome:
`(suggestion_type, intensity, should_show)`. -/
def resultTriple (rc : SuggestionResult × Coach) : String × ℚ × Bool :=
  (rc.1.suggestion_type, rc.1.intensity, rc.1.should_show)

lemma getNamingSuggestion_override (c : Coach) (now : ℚ) (today : String)
    (rand : ℚ) (filename : String) (content : Option String)
    (filePath : Option String) (hwf : cacheWellFormed c)
    (hov : (c.state.fade_out_overrides.lookup "naming_consistency").getD false
      = true) :
    (getNamingSuggestion c now today rand filename content
      filePath).toOption.map resultTriple = some ("none", 0, false) := by
  unfold getNamingSuggestion
  dsimp only
  have hsome := (getDifficultyReport_wellFormed c now hwf).1
  rcases hlk : (getDifficultyReport c now).1.skills.lookup "naming_consistency"
    with _ | a
  · rw [hlk] at hsome; exact absurd hsome (by simp)
  · rw [getDifficultyReport_overrides, hov]
    simp [resultTriple, Except.toOption]

lemma getFolderSuggestion_override (fs : FolderOracle) (c : Coach)
    (now rand : ℚ) (filePath : String)
    (availableFolders : Option (List String)) (hwf : cacheWellFormed c)
    (hov :
      (c.state.fade_out_overrides.lookup "folder_organization").getD false
      = true) :
    (getFolderSuggestion fs c now rand filePath
      availableFolders).toOption.map resultTriple =
      some ("none", 0, false) := by
  unfold getFolderSuggestion
  dsimp only
  have hsome := (getDifficultyReport_wellFormed c now hwf).2
  rcases hlk :
    (getDifficultyReport c now).1.skills.lookup "folder_organization"
    with _ | a
  · rw [hlk] at hsome; exact absurd hsome (by simp)
  · rw [getDifficultyReport_overrides, hov]
    simp [resultTriple, Except.toOption]

/-! ## Claim theorems -/

/-- C1: for every skill assessment (any score, trend and confidence, in
particular any score in `[0,1]` and trend among new / improving / stable /
regressing), the intensity computed by `_calculate_intensity` lies in
`[0,1]`; and both suggestion entry points, called on a coach whose
`fade_out_overrides` entry for the requested skill is `true` (and whose
cached report, if any, is one the assessor can produce), return
suggestion_type `"none"`, intensity `0` and `should_show = false`,
regardless of score, trend, confidence or the randomness draw. -/
theorem c1_intensity_clamped_and_override_suppressed :
    (∀ a : SkillAssessment,
      0 ≤ (calculateIntensity a).1 ∧ (calculateIntensity a).1 ≤ 1) ∧
    (∀ (c : Coach) (now : ℚ) (today : String) (rand : ℚ)
      (filename : String) (content : Option String)
      (filePath : Option String), cacheWellFormed c →
      (c.state.fade_out_overrides.lookup "naming_consistency").getD false
        = true →
      (getNamingSuggestion c now today rand filename content
        filePath).toOption.map resultTriple = some ("none", 0, false)) ∧
    (∀ (fs : FolderOracle) (c : Coach) (now rand : ℚ) (filePath : String)
      (availableFolders : Option (List String)), cacheWellFormed c →
      (c.state.fade_out_overrides.lookup "folder_organization").getD false
        = true →
      (getFolderSuggestion fs c now rand filePath
        availableFolders).toOption.map resultTriple =
        some ("none", 0, false)) :=
  ⟨calculateIntensity_bounds,
   fun c now today rand fn ct fp hwf hov =>
     getNamingSuggestion_override c now today rand fn ct fp hwf hov,
   fun fs c now rand fp av hwf hov =>
     getFolderSuggestion_override fs c now rand fp av hwf hov⟩

/-- A coach state with both suggestion overrides disabled by the user. -/
def overriddenCoach : Coach :=
  { emptyCoach with
      state :=
        { defaultCoachingState with
            fade_out_overrides :=
              [("naming_consistency", true), ("folder_organization", true)] } }

/-- Witness for C1 at a concrete coach state with both overrides set. -/
theorem c1_intensity_clamped_and_override_suppressed_witness :
    (0 ≤ (calculateIntensity
        ⟨"naming_consistency", 1/2, 1/10, "new", [], 0, 0⟩).1 ∧
      (calculateIntensity
        ⟨"naming_consistency", 1/2, 1/10, "new", [], 0, 0⟩).1 ≤ 1) ∧
    (getNamingSuggestion overriddenCoach 0 "20260101" 0 "notes.md" none
      none).toOption.map resultTriple = some ("none", 0, false) ∧
    (getFolderSuggestion (fun _ => []) overriddenCoach 0 0 "a/notes.md"
      none).toOption.map resultTriple = some ("none", 0, false) :=
  ⟨c1_intensity_clamped_and_override_suppressed.1 _,
   c1_intensity_clamped_and_override_suppressed.2.1 overriddenCoach 0
     "20260101" 0 "notes.md" none none
     (fun r h => by simp [overriddenCoach, emptyCoach] at h) (by decide),
   c1_intensity_clamped_and_override_suppressed.2.2 (fun _ => [])
     overriddenCoach 0 0 "a/notes.md" none
     (fun r h => by simp [overriddenCoach, emptyCoach] at h) (by decide)⟩

/-- C6: holding trend and confidence (and all other fields) fixed, the
computed intensity is non-increasing in the score; in particular the four
band representatives satisfy struggling ≥ learning ≥ proficient ≥
mastered. -/
theorem c6_intensity_antitone_in_score :
    (∀ (s₁ s₂ conf : ℚ) (trend nm₁ nm₂ : String) (ev₁ ev₂ : List String)
      (lu₁ lu₂ : ℚ) (n₁ n₂ : ℕ), s₁ ≤ s₂ →
      (calculateIntensity ⟨nm₂, s₂, conf, trend, ev₂, lu₂, n₂⟩).1 ≤
        (calculateIntensity ⟨nm₁, s₁, conf, trend, ev₁, lu₁, n₁⟩).1) ∧
    (∀ (conf : ℚ) (trend nm : String) (ev : List String) (lu : ℚ) (n : ℕ),
      (calculateIntensity ⟨nm, 9/10, conf, trend, ev, lu, n⟩).1 ≤
        (calculateIntensity ⟨nm, 4/5, conf, trend, ev, lu, n⟩).1 ∧
      (calculateIntensity ⟨nm, 4/5, conf, trend, ev, lu, n⟩).1 ≤
        (calculateIntensity ⟨nm, 1/2, conf, trend, ev, lu, n⟩).1 ∧
      (calculateIntensity ⟨nm, 1/2, conf, trend, ev, lu, n⟩).1 ≤
        (calculateIntensity ⟨nm, 3/10, conf, trend, ev, lu, n⟩).1) := by
  have core : ∀ (s₁ s₂ conf : ℚ) (trend nm₁ nm₂ : String)
      (ev₁ ev₂ : List String) (lu₁ lu₂ : ℚ) (n₁ n₂ : ℕ), s₁ ≤ s₂ →
      (calculateIntensity ⟨nm₂, s₂, conf, trend, ev₂, lu₂, n₂⟩).1 ≤
        (calculateIntensity ⟨nm₁, s₁, conf, trend, ev₁, lu₁, n₁⟩).1 := by
    intro s₁ s₂ conf trend nm₁ nm₂ ev₁ ev₂ lu₁ lu₂ n₁ n₂ h
    rw [calculateIntensity_fst, calculateIntensity_fst]
    have ht := trendAdj_mono trend (bandBase_antitone h)
    dsimp only
    split_ifs
    · exact max_le_max ht le_rfl
    · exact ht
  exact ⟨core, fun conf trend nm ev lu n =>
    ⟨core _ _ conf trend nm nm ev ev lu lu n n (by norm_num),
     core _ _ conf trend nm nm ev ev lu lu n n (by norm_num),
     core _ _ conf trend nm nm ev ev lu lu n n (by norm_num)⟩⟩

/-- Witness for C6 at concrete scores 3/10 ≤ 1/2. -/
theorem c6_intensity_antitone_in_score_witness :
    (calculateIntensity ⟨"s", 1/2, 1, "stable", [], 0, 0⟩).1 ≤
      (calculateIntensity ⟨"s", 3/10, 1, "stable", [], 0, 0⟩).1 :=
  c6_intensity_antitone_in_score.1 (3/10) (1/2) 1 "stable" "s" "s" [] [] 0 0
    0 0 (by norm_num)

/-- C7: for every score and confidence, the intensity computed with trend
"regressing" is at least the intensity computed with trend "stable" for
the same score and confidence, and an assessment with trend "regressing"
is never assigned the level label "mastered". -/
theorem c7_regression_boost_never_mastered (s conf : ℚ)
    (nm₁ nm₂ : String) (ev₁ ev₂ : List String) (lu₁ lu₂ : ℚ) (n₁ n₂ : ℕ) :
    (calculateIntensity ⟨nm₁, s, conf, "stable", ev₁, lu₁, n₁⟩).1 ≤
      (calculateIntensity ⟨nm₂, s, conf, "regressing", ev₂, lu₂, n₂⟩).1 ∧
    (calculateIntensity ⟨nm₂, s, conf, "regressing", ev₂, lu₂, n₂⟩).2 ≠
      "mastered" := by
  constructor
  · rw [calculateIntensity_fst, calculateIntensity_fst]
    dsimp only
    have hbm := bandBase_mem s
    have hcore : trendAdj "stable" (bandBase s) ≤
        trendAdj "regressing" (bandBase s) := by
      have h1 : trendAdj "stable" (bandBase s) = bandBase s := rfl
      have h2 : trendAdj "regressing" (bandBase s) =
          min (bandBase s + 1/5) 1 := rfl
      rw [h1, h2]
      exact le_min (by linarith [hbm.1]) hbm.2
    split_ifs
    · exact max_le_max hcore le_rfl
    · exact hcore
  · rw [calculateIntensity_snd]
    dsimp only
    simp only [if_pos rfl]
    unfold bandLevel
    split_ifs <;> simp_all

/-- C2: `record_suggestion_response` never completes: after bumping the
session and cumulative counters and saving state, it invokes
`self.tracker.record_organization_decision`, which `BehaviorTracker` does
not define, so the call raises `AttributeError` on every coach state and
argument list — the organization-decision event is never appended and the
report cache is never invalidated, contradicting the claim. -/
theorem c2_record_response_always_raises (c : Coach)
    (suggestionType : String) (accepted : Bool)
    (originalValue suggestedValue finalValue : String) :
    errOf (recordSuggestionResponse c suggestionType accepted originalValue
      suggestedValue finalValue) =
      some "AttributeError: BehaviorTracker object has no attribute record_organization_decision" :=
  rfl

/-- C3: on a coach over an empty Behavior Store,
`get_naming_suggestion("notes.md", "Meeting notes about budget")` never
returns the claimed `(should_show = true, "new", 1.0, "naming")`: the
assessor still produces a `naming_consistency` assessment (score 0.5,
confidence 0.1, trend "new"), which the intensity calculation maps to
level "learning" with intensity 0.7; when the 0.7-probability display draw
succeeds (here `rand = 1/2`), the coach passes the raw content string as
the engine's `content_analysis` dict and `suggest_filename` raises
`AttributeError`; when it fails (here `rand = 9/10`), the result is the
faded `("naming", "learning", 0.7, should_show = false)`. -/
theorem c3_empty_store_naming_scenario :
    errOf (getNamingSuggestion emptyCoach 0 "20260101" (1/2) "notes.md"
      (some "Meeting notes about budget")) =
      some "AttributeError: str object has no attribute get" ∧
    (getNamingSuggestion emptyCoach 0 "20260101" (9/10) "notes.md"
      (some "Meeting notes about budget")).toOption.map
      (fun rc => (rc.1.suggestion_type, rc.1.skill_level, rc.1.intensity,
        rc.1.should_show)) =
      some ("naming", "learning", 7/10, false) := by
  with_unfolding_all decide

/-- An event log holding ten searches that were never clicked through. -/
def tenFailedSearches : TrackerEvents :=
  { emptyTrackerEvents with
      searches := List.replicate 10
        { timestamp := 0, query := "budget report", results_count := 0
          clicked_result := none, time_to_click_ms := none
          refined_query := none, session_id := "s" } }

/-- A coach over the ten-failed-searches store. -/
def strugglingCoach : Coach := { emptyCoach with events := tenFailedSearches }

/-- C8: `get_status` raises before returning anything whenever the report
has a non-empty struggles list, because the detector keys the struggle
entries `'skill'` while `get_status` projects them with `entry['area']`.
Ten failed searches put `search_ability` at score 0.25 with confidence
0.5, a reachable struggling state, and the very first `get_status` call
raises `KeyError: area` — so two calls inside the cache window do not
return identical reports; they do not return at all. -/
theorem c8_get_status_raises_on_struggles :
    errOf (getStatus strugglingCoach 0) = some "KeyError: area" ∧
    (assessSearchAbility tenFailedSearches [] 0).1.score = 1/4 ∧
    (assessSearchAbility tenFailedSearches [] 0).1.confidence = 1/2 := by
  with_unfolding_all decide

/-- C10 counterexample: valid JSON of an unexpected top-level shape does
raise during construction.  An events file holding the JSON object `{}`
(no `file_accesses` key) raises `KeyError` inside the suggestion engine's
construction-time naming-preference scan, and a coaching-state file
holding the JSON array `[]` raises `AttributeError` in `_load_state`
(which catches only `JSONDecodeError` and `KeyError`). -/
theorem c10_unexpected_shape_raises :
    errOf (constructCoach ⟨.ok (.dict []), .absent, .absent, .absent⟩) =
      some "KeyError: file_accesses" ∧
    errOf (constructCoach ⟨.absent, .absent, .absent, .ok (.list [])⟩) =
      some "AttributeError: list object has no attribute get" := by
  with_unfolding_all decide

/-- A tracker file that is missing, unreadable or not JSON. -/
def corruptFile (f : FileRead) : Prop :=
  f = .absent ∨ f = .unreadable ∨ f = .badJson

/-- Projection of the constructed coach's store and state. -/
def coachCore (c : Coach) :
    TrackerEvents × TrackerStats × CoachingState × LearnedConv :=
  (c.events, c.stats, c.state, c.suggesterConv)

/-- C10 (amended): the Behavior Store's `_load_json` falls back to the
default for any missing, unreadable or unparseable file, and constructing
the orchestrator over such tracker files — with a coaching-state file that
is missing or unparseable (but not unreadable: `_load_state` does not
catch `OSError`) — succeeds and yields the empty store, default stats and
default coaching state. -/
theorem c10_corrupt_files_default (dsk : Disk)
    (h1 : corruptFile dsk.eventsFile) (h2 : corruptFile dsk.sessionsFile)
    (h3 : corruptFile dsk.statsFile)
    (h4 : dsk.stateFile = .absent ∨ dsk.stateFile = .badJson) :
    (∀ d : PyVal, loadJson dsk.eventsFile d = d) ∧
    (constructCoach dsk).toOption.map coachCore =
      some (emptyTrackerEvents, defaultTrackerStats, defaultCoachingState,
        none) := by
  have hload : ∀ (f : FileRead) (d : PyVal), corruptFile f → loadJson f d = d := by
    rintro f d (rfl | rfl | rfl) <;> rfl
  refine ⟨fun d => hload _ d h1, ?_⟩
  have hst : loadState dsk.stateFile = .ok defaultCoachingState := by
    rcases h4 with h | h <;> rw [h] <;> rfl
  unfold constructCoach
  rw [hload _ _ h1, hload _ _ h2, hload _ _ h3, hst]
  with_unfolding_all decide

/-- Witness for C10 (amended) at a disk whose four files all failed to
parse. -/
theorem c10_corrupt_files_default_witness :
    loadJson (Disk.mk .badJson .badJson .badJson .badJson).eventsFile
      defaultEventsJson = defaultEventsJson ∧
    (constructCoach ⟨.badJson, .badJson, .badJson, .badJson⟩).toOption.map
      coachCore =
      some (emptyTrackerEvents, defaultTrackerStats, defaultCoachingState,
        none) :=
  let h := c10_corrupt_files_default ⟨.badJson, .badJson, .badJson, .badJson⟩
    (Or.inr (Or.inr rfl)) (Or.inr (Or.inr rfl)) (Or.inr (Or.inr rfl))
    (Or.inr rfl)
  ⟨h.1 defaultEventsJson, h.2⟩

/-! ## Round trip of the persisted coaching state (C9) -/

lemma decodeHistEntry_encode (e : HistEntry) :
    decodeHistEntry (encodeHistEntry e) = some e := rfl

lemma listMapM_decodeHistEntry (es : List HistEntry) :
    listMapM decodeHistEntry (es.map encodeHistEntry) = some es := by
  induction es with
  | nil => rfl
  | cons e t ih => simp [listMapM, decodeHistEntry_encode, ih]

lemma decodeHist_encode (h : List (String × List HistEntry)) :
    decodeHist (encodeHist h) = some h := by
  unfold decodeHist encodeHist
  induction h with
  | nil => rfl
  | cons ke t ih =>
    simp only [List.map_cons, listMapM, decodeHistList,
      listMapM_decodeHistEntry, Option.map_some] at ih ⊢
    rw [ih]
    rfl

lemma decodeOverrides_encode (o : List (String × Bool)) :
    decodeOverrides (encodeOverrides o) = some o := by
  unfold decodeOverrides encodeOverrides
  induction o with
  | nil => rfl
  | cons kb t ih =>
    simp only [List.map_cons, listMapM, decodeBool, Option.map_some] at ih ⊢
    rw [ih]
    rfl

lemma decodeNat_natCast (n : ℕ) : decodeNat (.num (n : ℚ)) = some n := by
  simp [decodeNat]

/-- C9: persisting any coaching state with `_save_state` and loading the
written document in a freshly constructed instance's `_load_state`
reproduces the state exactly — in particular the three cumulative
counters, the `fade_out_overrides` map and the full `skill_history` (of
any size, hence in particular within the 100-entry cap) are identical. -/
theorem c9_state_round_trip (s : CoachingState) :
    loadState (.ok (saveState s)) = .ok s := by
  obtain ⟨off, acc, dis, la, hist, ovr⟩ := s
  unfold loadState saveState
  dsimp only
  cases la <;>
    simp [List.lookup, decodeNat_natCast, decodeHist_encode,
      decodeOverrides_encode, decodeRat]

/-! ## Confidence as a function of the sample count (C4, C5) -/

/-- The shared shape of every assessor's confidence: the 0.1 floor below
the per-skill minimum, then `min(samples / divisor, 1)`. -/
def stepConf (m : ℕ) (d : ℚ) (n : ℕ) : ℚ :=
  if n < m then 1/10 else min ((n : ℚ) / d) 1

lemma stepConf_mono (m : ℕ) (d : ℚ) (hd : 0 < d) (hmd : d ≤ 10 * m)
    {n₁ n₂ : ℕ} (h : n₁ ≤ n₂) : stepConf m d n₁ ≤ stepConf m d n₂ := by
  unfold stepConf
  have hn : (n₁ : ℚ) ≤ (n₂ : ℚ) := by exact_mod_cast h
  split_ifs with ha hb hb
  · exact le_refl _
  · refine le_min ?_ (by norm_num)
    rw [le_div_iff₀ hd]
    have hmn : (m : ℚ) ≤ (n₂ : ℚ) := by exact_mod_cast Nat.le_of_not_lt hb
    linarith
  · omega
  · exact min_le_min (by gcongr) le_rfl

lemma stepConf_strict (m : ℕ) (d : ℚ) (hd : 0 < d) {n₁ n₂ : ℕ}
    (h1 : m ≤ n₁) (h2 : n₁ < n₂) (h3 : (n₂ : ℚ) ≤ d) :
    stepConf m d n₁ < stepConf m d n₂ := by
  unfold stepConf
  have e1 : ¬ n₁ < m := Nat.not_lt.mpr h1
  have e2 : ¬ n₂ < m := Nat.not_lt.mpr (le_trans h1 (Nat.le_of_lt h2))
  rw [if_neg e1, if_neg e2]
  have hn : (n₁ : ℚ) < (n₂ : ℚ) := by exact_mod_cast h2
  have m1 : (n₁ : ℚ) / d ≤ 1 := by rw [div_le_one hd]; linarith
  have m2 : (n₂ : ℚ) / d ≤ 1 := by rw [div_le_one hd]; linarith
  rw [min_eq_left m1, min_eq_left m2]
  exact (div_lt_div_iff_of_pos_right hd).mpr hn

lemma stepConf_floor (m : ℕ) (d : ℚ) (hd : 15 ≤ d) {n : ℕ} (h : n < 10) :
    stepConf m d n ≤ 3/5 := by
  unfold stepConf
  have hd0 : (0:ℚ) < d := by linarith
  split_ifs
  · norm_num
  · refine le_trans (min_le_left _ _) ?_
    have h9 : (n : ℚ) ≤ 9 := by exact_mod_cast Nat.le_of_lt_succ h
    calc (n : ℚ) / d ≤ 9 / d := by gcongr
    _ ≤ 9 / 15 := by gcongr
    _ ≤ 3/5 := by norm_num

lemma stepConf_ne (m : ℕ) (d : ℚ) (hd : 0 < d) (hdm : d < 10 * m)
    {n : ℕ} (h : ¬ n < m) : stepConf m d n ≠ 1/10 := by
  unfold stepConf
  rw [if_neg h]
  have hmn : (m : ℚ) ≤ (n : ℚ) := by exact_mod_cast Nat.le_of_not_lt h
  have hlt : (1:ℚ)/10 < (n : ℚ) / d := by
    rw [lt_div_iff₀ hd]; linarith
  have h2 : (1:ℚ)/10 < min ((n : ℚ) / d) 1 := lt_min hlt (by norm_num)
  intro heq
  linarith [heq ▸ h2]

/-- The four skill areas of the detector. -/
inductive SkillKind where
  | search
  | naming
  | folderOrg
  | fileMgmt
  deriving DecidableEq

/-- The assessment each area's assessor produces. -/
def assessOf (k : SkillKind) (ev : TrackerEvents) (st : TrackerStats)
    (hist : DetectorHist) (now : ℚ) : SkillAssessment :=
  match k with
  | .search => (assessSearchAbility ev hist now).1
  | .naming => (assessNamingConsistency ev hist now).1
  | .folderOrg => (assessFolderOrganization ev hist now).1
  | .fileMgmt => (assessFileManagement ev st hist now).1

/-- The per-skill minimum sample count. -/
def minSamplesOf : SkillKind → ℕ
  | .search => 3
  | _ => 5

/-- The per-skill confidence divisor. -/
def confDivOf : SkillKind → ℚ
  | .search => 20
  | .naming => 15
  | .folderOrg => 20
  | .fileMgmt => 30

lemma assessSearchAbility_conf (ev : TrackerEvents) (hist : DetectorHist)
    (now : ℚ) :
    (assessSearchAbility ev hist now).1.confidence =
      stepConf 3 20 (assessSearchAbility ev hist now).1.samples_count := by
  unfold assessSearchAbility
  dsimp only
  by_cases h : (getSearchPatterns ev.searches now).total_searches < 3
  · simp [neutralAssessment, stepConf, h]
  · simp [stepConf, h]

lemma assessNamingConsistency_conf (ev : TrackerEvents)
    (hist : DetectorHist) (now : ℚ) :
    (assessNamingConsistency ev hist now).1.confidence =
      stepConf 5 15 (assessNamingConsistency ev hist now).1.samples_count := by
  unfold assessNamingConsistency
  dsimp only
  by_cases h : (getNamingPreferences ev.file_accesses).2 < 5
  · simp [neutralAssessment, stepConf, h]
  · simp [stepConf, h]

lemma assessFolderOrganization_conf (ev : TrackerEvents)
    (hist : DetectorHist) (now : ℚ) :
    (assessFolderOrganization ev hist now).1.confidence =
      stepConf 5 20
        (assessFolderOrganization ev hist now).1.samples_count := by
  unfold assessFolderOrganization
  dsimp only
  by_cases h : ev.navigation.length < 5
  · simp [neutralAssessment, stepConf, h]
  · simp [stepConf, h]

lemma assessFileManagement_conf (ev : TrackerEvents) (st : TrackerStats)
    (hist : DetectorHist) (now : ℚ) :
    (assessFileManagement ev st hist now).1.confidence =
      stepConf 5 30 (assessFileManagement ev st hist now).1.samples_count := by
  unfold assessFileManagement
  dsimp only
  by_cases h : (getFilePatterns ev.file_accesses now).total_accesses < 5
  · simp [neutralAssessment, stepConf, h]
  · simp [stepConf, h]

lemma assessOf_conf (k : SkillKind) (ev : TrackerEvents)
    (st : TrackerStats) (hist : DetectorHist) (now : ℚ) :
    (assessOf k ev st hist now).confidence =
      stepConf (minSamplesOf k) (confDivOf k)
        (assessOf k ev st hist now).samples_count := by
  cases k
  · exact assessSearchAbility_conf ev hist now
  · exact assessNamingConsistency_conf ev hist now
  · exact assessFolderOrganization_conf ev hist now
  · exact assessFileManagement_conf ev st hist now

/-- An event log holding two searches that were never clicked through. -/
def twoFailedSearches : TrackerEvents :=
  { emptyTrackerEvents with
      searches := List.replicate 2
        { timestamp := 0, query := "budget report", results_count := 0
          clicked_result := none, time_to_click_ms := none
          refined_query := none, session_id := "s" } }

/-- C4 counterexample: confidence is not a strictly increasing function of
`samples_count` up to the cap — the search assessor over the empty store
(`samples_count = 0`) and over a two-failed-search store
(`samples_count = 2`) reports the same confidence 0.1, which is not the
cap 1.0. -/
theorem c4_confidence_not_strictly_increasing :
    ¬ (∀ (ev₁ ev₂ : TrackerEvents) (h₁ h₂ : DetectorHist) (t₁ t₂ : ℚ),
      (assessSearchAbility ev₁ h₁ t₁).1.samples_count <
        (assessSearchAbility ev₂ h₂ t₂).1.samples_count →
      (assessSearchAbility ev₁ h₁ t₁).1.confidence <
        (assessSearchAbility ev₂ h₂ t₂).1.confidence ∨
      (assessSearchAbility ev₁ h₁ t₁).1.confidence = 1) := by
  intro hclaim
  have h := hclaim emptyTrackerEvents twoFailedSearches [] [] 0 0
    (by with_unfolding_all decide)
  revert h
  with_unfolding_all decide

/-- C4 (amended): for every skill area, the reported confidence is a
non-decreasing function of the reported `samples_count`, strictly
increasing from the per-skill minimum up to the divisor where the cap 1.0
is reached; and any assessment produced from fewer than 10 samples has
confidence at most 0.6 — never a high (full) confidence. -/
theorem c4_confidence_monotone_floor :
    (∀ (k : SkillKind) (ev₁ ev₂ : TrackerEvents) (st₁ st₂ : TrackerStats)
      (h₁ h₂ : DetectorHist) (t₁ t₂ : ℚ),
      (assessOf k ev₁ st₁ h₁ t₁).samples_count ≤
        (assessOf k ev₂ st₂ h₂ t₂).samples_count →
      (assessOf k ev₁ st₁ h₁ t₁).confidence ≤
        (assessOf k ev₂ st₂ h₂ t₂).confidence) ∧
    (∀ (k : SkillKind) (ev₁ ev₂ : TrackerEvents) (st₁ st₂ : TrackerStats)
      (h₁ h₂ : DetectorHist) (t₁ t₂ : ℚ),
      minSamplesOf k ≤ (assessOf k ev₁ st₁ h₁ t₁).samples_count →
      (assessOf k ev₁ st₁ h₁ t₁).samples_count <
        (assessOf k ev₂ st₂ h₂ t₂).samples_count →
      ((assessOf k ev₂ st₂ h₂ t₂).samples_count : ℚ) ≤ confDivOf k →
      (assessOf k ev₁ st₁ h₁ t₁).confidence <
        (assessOf k ev₂ st₂ h₂ t₂).confidence) ∧
    (∀ (k : SkillKind) (ev : TrackerEvents) (st : TrackerStats)
      (h : DetectorHist) (t : ℚ),
      (assessOf k ev st h t).samples_count < 10 →
      (assessOf k ev st h t).confidence ≤ 3/5) := by
  refine ⟨?_, ?_, ?_⟩
  · intro k ev₁ ev₂ st₁ st₂ h₁ h₂ t₁ t₂ h
    rw [assessOf_conf, assessOf_conf]
    refine stepConf_mono _ _ ?_ ?_ h <;> cases k <;>
      norm_num [confDivOf, minSamplesOf]
  · intro k ev₁ ev₂ st₁ st₂ h₁ h₂ t₁ t₂ hm hlt hcap
    rw [assessOf_conf, assessOf_conf]
    refine stepConf_strict _ _ ?_ hm hlt hcap
    cases k <;> norm_num [confDivOf]
  · intro k ev st h t hn
    rw [assessOf_conf]
    refine stepConf_floor _ _ ?_ hn
    cases k <;> norm_num [confDivOf]

/-- An event log holding five searches that were never clicked through. -/
def fiveFailedSearches : TrackerEvents :=
  { emptyTrackerEvents with
      searches := List.replicate 5
        { timestamp := 0, query := "budget report", results_count := 0
          clicked_result := none, time_to_click_ms := none
          refined_query := none, session_id := "s" } }

/-- Witness for C4 (amended) at concrete stores with 0, 5 and 10 failed
searches. -/
theorem c4_confidence_monotone_floor_witness :
    ((assessOf .search emptyTrackerEvents defaultTrackerStats []
        0).confidence ≤
      (assessOf .search tenFailedSearches defaultTrackerStats []
        0).confidence) ∧
    ((assessOf .search fiveFailedSearches defaultTrackerStats []
        0).confidence <
      (assessOf .search tenFailedSearches defaultTrackerStats []
        0).confidence) ∧
    ((assessOf .search fiveFailedSearches defaultTrackerStats []
        0).confidence ≤ 3/5) :=
  ⟨c4_confidence_monotone_floor.1 .search emptyTrackerEvents
      tenFailedSearches defaultTrackerStats defaultTrackerStats [] [] 0 0
      (by with_unfolding_all decide),
   c4_confidence_monotone_floor.2.1 .search fiveFailedSearches
      tenFailedSearches defaultTrackerStats defaultTrackerStats [] [] 0 0
      (by with_unfolding_all decide) (by with_unfolding_all decide)
      (by with_unfolding_all decide),
   c4_confidence_monotone_floor.2.2 .search fiveFailedSearches
      defaultTrackerStats [] 0 (by with_unfolding_all decide)⟩

/-! ## Neutral assessments exactly below the per-skill minimum (C5) -/

lemma assessSearchAbility_samples (ev : TrackerEvents)
    (hist : DetectorHist) (now : ℚ) :
    (assessSearchAbility ev hist now).1.samples_count =
      (getSearchPatterns ev.searches now).total_searches := by
  unfold assessSearchAbility
  dsimp only
  by_cases h : (getSearchPatterns ev.searches now).total_searches < 3 <;>
    simp [neutralAssessment, h]

lemma assessNamingConsistency_samples (ev : TrackerEvents)
    (hist : DetectorHist) (now : ℚ) :
    (assessNamingConsistency ev hist now).1.samples_count =
      (getNamingPreferences ev.file_accesses).2 := by
  unfold assessNamingConsistency
  dsimp only
  by_cases h : (getNamingPreferences ev.file_accesses).2 < 5 <;>
    simp [neutralAssessment, h]

lemma assessFolderOrganization_samples (ev : TrackerEvents)
    (hist : DetectorHist) (now : ℚ) :
    (assessFolderOrganization ev hist now).1.samples_count =
      ev.navigation.length := by
  unfold assessFolderOrganization
  dsimp only
  by_cases h : ev.navigation.length < 5 <;> simp [neutralAssessment, h]

lemma assessFileManagement_samples (ev : TrackerEvents) (st : TrackerStats)
    (hist : DetectorHist) (now : ℚ) :
    (assessFileManagement ev st hist now).1.samples_count =
      (getFilePatterns ev.file_accesses now).total_accesses := by
  unfold assessFileManagement
  dsimp only
  by_cases h : (getFilePatterns ev.file_accesses now).total_accesses < 5 <;>
    simp [neutralAssessment, h]

/-- The neutral result triple each below-minimum assessor reports. -/
def neutralTriple (a : SkillAssessment) : Prop :=
  a.score = 1/2 ∧ a.confidence = 1/10 ∧ a.trend = "new"

/-- C5: each per-skill assessor returns the neutral assessment (score 0.5,
confidence 0.1, trend "new") exactly when its sample count is below its
minimum — fewer than 3 windowed searches for search ability, fewer than 5
recorded renames for naming consistency, fewer than 5 navigation events
for folder organization, fewer than 5 windowed file accesses for file
management; in particular, below the minimum the reported confidence is
0.1 (hence at most 0.1) and the trend is "new". -/
theorem c5_neutral_iff_below_minimum (ev : TrackerEvents)
    (st : TrackerStats) (hist : DetectorHist) (now : ℚ) :
    (neutralTriple (assessSearchAbility ev hist now).1 ↔
      (getSearchPatterns ev.searches now).total_searches < 3) ∧
    (neutralTriple (assessNamingConsistency ev hist now).1 ↔
      (getNamingPreferences ev.file_accesses).2 < 5) ∧
    (neutralTriple (assessFolderOrganization ev hist now).1 ↔
      ev.navigation.length < 5) ∧
    (neutralTriple (assessFileManagement ev st hist now).1 ↔
      (getFilePatterns ev.file_accesses now).total_accesses < 5) := by
  refine ⟨⟨?_, ?_⟩, ⟨?_, ?_⟩, ⟨?_, ?_⟩, ⟨?_, ?_⟩⟩
  · rintro ⟨hs, hc, ht⟩
    by_contra h
    have hconf := assessSearchAbility_conf ev hist now
    have hsamp := assessSearchAbility_samples ev hist now
    rw [hc, hsamp] at hconf
    exact stepConf_ne 3 20 (by norm_num) (by norm_num) h hconf.symm
  · intro h
    unfold assessSearchAbility neutralTriple
    dsimp only
    simp [h, neutralAssessment]
  · rintro ⟨hs, hc, ht⟩
    by_contra h
    have hconf := assessNamingConsistency_conf ev hist now
    have hsamp := assessNamingConsistency_samples ev hist now
    rw [hc, hsamp] at hconf
    exact stepConf_ne 5 15 (by norm_num) (by norm_num) h hconf.symm
  · intro h
    unfold assessNamingConsistency neutralTriple
    dsimp only
    simp [h, neutralAssessment]
  · rintro ⟨hs, hc, ht⟩
    by_contra h
    have hconf := assessFolderOrganization_conf ev hist now
    have hsamp := assessFolderOrganization_samples ev hist now
    rw [hc, hsamp] at hconf
    exact stepConf_ne 5 20 (by norm_num) (by norm_num) h hconf.symm
  · intro h
    unfold assessFolderOrganization neutralTriple
    dsimp only
    simp [h, neutralAssessment]
  · rintro ⟨hs, hc, ht⟩
    by_contra h
    have hconf := assessFileManagement_conf ev st hist now
    have hsamp := assessFileManagement_samples ev st hist now
    rw [hc, hsamp] at hconf
    exact stepConf_ne 5 30 (by norm_num) (by norm_num) h hconf.symm
  · intro h
    unfold assessFileManagement neutralTriple
    dsimp only
    simp [h, neutralAssessment]

/-- Witness for C5 over the empty Behavior Store (all four sample counts
are below their minima, so all four assessors report the neutral
triple). -/
theorem c5_neutral_iff_below_minimum_witness :
    neutralTriple
      (assessSearchAbility emptyTrackerEvents [] 0).1 ∧
    neutralTriple
      (assessNamingConsistency emptyTrackerEvents [] 0).1 ∧
    neutralTriple
      (assessFolderOrganization emptyTrackerEvents [] 0).1 ∧
    neutralTriple
      (assessFileManagement emptyTrackerEvents defaultTrackerStats [] 0).1 :=
  ⟨(c5_neutral_iff_below_minimum emptyTrackerEvents defaultTrackerStats []
      0).1.mpr (by with_unfolding_all decide),
   (c5_neutral_iff_below_minimum emptyTrackerEvents defaultTrackerStats []
      0).2.1.mpr (by with_unfolding_all decide),
   (c5_neutral_iff_below_minimum emptyTrackerEvents defaultTrackerStats []
      0).2.2.1.mpr (by with_unfolding_all decide),
   (c5_neutral_iff_below_minimum emptyTrackerEvents defaultTrackerStats []
      0).2.2.2.mpr (by with_unfolding_all decide)⟩

/-- Witness for C7 at score 1/2, confidence 1. -/
theorem c7_regression_boost_never_mastered_witness :
    (calculateIntensity ⟨"s", 1/2, 1, "stable", [], 0, 0⟩).1 ≤
      (calculateIntensity ⟨"s", 1/2, 1, "regressing", [], 0, 0⟩).1 ∧
    (calculateIntensity ⟨"s", 1/2, 1, "regressing", [], 0, 0⟩).2 ≠
      "mastered" :=
  c7_regression_boost_never_mastered (1/2) 1 "s" "s" [] [] 0 0 0 0

/-- A sample coaching state exercising every field of the round trip. -/
def sampleCoachingState : CoachingState :=
  { total_suggestions_offered := 3
    total_suggestions_accepted := 2
    total_suggestions_dismissed := 1
    last_assessment := some (5/2)
    skill_history :=
      [("naming_consistency", [{ date := 1, score := 1/2, trend := "new" }])]
    fade_out_overrides := [("naming_consistency", true)] }

/-- Witness for C9 at a concrete coaching state. -/
theorem c9_state_round_trip_witness :
    loadState (.ok (saveState sampleCoachingState)) =
      .ok sampleCoachingState :=
  c9_state_round_trip sampleCoachingState

end MdScanner
